import Mathlib

/-!
# BQ25898S slave charger driver: register access and charge control

A shallow embedding of `bq25898s_slave.c`.

* C `int` values are `Int`; `u8` and `u16` values are `Nat`, reduced `% 256` and
  `% 65536` at every place where the C code converts to the narrow type.
* The I2C adapter and the charger behind it are the environment of the driver.  They are
  an explicit state `i2c_client`: a register file, the list of transactions issued so far
  and a script of the return codes of the transactions still to come, so that every bus
  failure the driver can meet is an input of the model.
* The register map `bq25898s_reg.h` is included by the driver but is not part of the
  sources.  Its macros are the fields of `RegMap`; every function takes the map as its
  first argument and every theorem states which facts about the map it relies on.
* `dev_err`, `dev_info`, `printk` and `msleep` have no effect on the state modelled here.
-/

namespace BQ25898S

/-! ## Register map -/

/-- The macros of `bq25898s_reg.h` used by the driver, under their C names. -/
structure RegMap where
  BQ25898S_REG_00 : Nat
  BQ25898S_ENHIZ_MASK : Nat
  BQ25898S_ENHIZ_SHIFT : Nat
  BQ25898S_HIZ_ENABLE : Nat
  BQ25898S_HIZ_DISABLE : Nat
  BQ25898S_IINLIM_MASK : Nat
  BQ25898S_IINLIM_SHIFT : Nat
  BQ25898S_IINLIM_BASE : Nat
  BQ25898S_IINLIM_LSB : Nat
  BQ25898S_REG_02 : Nat
  BQ25898S_CONV_START_MASK : Nat
  BQ25898S_CONV_START_SHIFT : Nat
  BQ25898S_CONV_START : Nat
  BQ25898S_CONV_RATE_MASK : Nat
  BQ25898S_CONV_RATE_SHIFT : Nat
  BQ25898S_ADC_CONTINUE_ENABLE : Nat
  BQ25898S_ADC_CONTINUE_DISABLE : Nat
  BQ25898S_AUTO_DPDM_EN_MASK : Nat
  BQ25898S_AUTO_DPDM_EN_SHIFT : Nat
  BQ25898S_AUTO_DPDM_ENABLE : Nat
  BQ25898S_AUTO_DPDM_DISABLE : Nat
  BQ25898S_REG_03 : Nat
  BQ25898S_WDT_RESET_MASK : Nat
  BQ25898S_WDT_RESET_SHIFT : Nat
  BQ25898S_WDT_RESET : Nat
  BQ25898S_CHG_CONFIG_MASK : Nat
  BQ25898S_CHG_CONFIG_SHIFT : Nat
  BQ25898S_CHG_ENABLE : Nat
  BQ25898S_CHG_DISABLE : Nat
  BQ25898S_REG_04 : Nat
  BQ25898S_ICHG_MASK : Nat
  BQ25898S_ICHG_SHIFT : Nat
  BQ25898S_ICHG_BASE : Nat
  BQ25898S_ICHG_LSB : Nat
  BQ25898S_REG_05 : Nat
  BQ25898S_ITERM_MASK : Nat
  BQ25898S_ITERM_SHIFT : Nat
  BQ25898S_ITERM_BASE : Nat
  BQ25898S_ITERM_LSB : Nat
  BQ25898S_REG_06 : Nat
  BQ25898S_VREG_MASK : Nat
  BQ25898S_VREG_SHIFT : Nat
  BQ25898S_VREG_BASE : Nat
  BQ25898S_VREG_LSB : Nat
  BQ25898S_REG_07 : Nat
  BQ25898S_EN_TERM_MASK : Nat
  BQ25898S_EN_TERM_SHIFT : Nat
  BQ25898S_TERM_ENABLE : Nat
  BQ25898S_TERM_DISABLE : Nat
  BQ25898S_WDT_MASK : Nat
  BQ25898S_WDT_SHIFT : Nat
  BQ25898S_WDT_DISABLE : Nat
  BQ25898S_WDT_BASE : Nat
  BQ25898S_WDT_LSB : Nat
  BQ25898S_REG_0B : Nat
  BQ25898S_CHRG_STAT_MASK : Nat
  BQ25898S_CHRG_STAT_SHIFT : Nat
  BQ25898S_CHRG_STAT_IDLE : Nat
  BQ25898S_CHRG_STAT_PRECHG : Nat
  BQ25898S_CHRG_STAT_FASTCHG : Nat
  BQ25898S_CHRG_STAT_CHGDONE : Nat
  BQ25898S_REG_0C : Nat
  BQ25898S_REG_0D : Nat
  BQ25898S_FORCE_VINDPM_MASK : Nat
  BQ25898S_FORCE_VINDPM_SHIFT : Nat
  BQ25898S_FORCE_VINDPM_ENABLE : Nat
  BQ25898S_FORCE_VINDPM_DISABLE : Nat
  BQ25898S_VINDPM_MASK : Nat
  BQ25898S_VINDPM_SHIFT : Nat
  BQ25898S_VINDPM_BASE : Nat
  BQ25898S_VINDPM_LSB : Nat
  BQ25898S_REG_0E : Nat
  BQ25898S_BATV_MASK : Nat
  BQ25898S_BATV_SHIFT : Nat
  BQ25898S_BATV_BASE : Nat
  BQ25898S_BATV_LSB : Nat
  BQ25898S_REG_11 : Nat
  BQ25898S_VBUSV_MASK : Nat
  BQ25898S_VBUSV_SHIFT : Nat
  BQ25898S_VBUSV_BASE : Nat
  BQ25898S_VBUSV_LSB : Nat
  BQ25898S_REG_12 : Nat
  BQ25898S_ICHGR_MASK : Nat
  BQ25898S_ICHGR_SHIFT : Nat
  BQ25898S_ICHGR_BASE : Nat
  BQ25898S_ICHGR_LSB : Nat
  BQ25898S_REG_13 : Nat
  BQ25898S_VDPM_STAT_MASK : Nat
  BQ25898S_IDPM_STAT_MASK : Nat

/-- The register layout of the BQ25898S data sheet, the map at which the theorems below
are instantiated.  The theorems themselves hold for every map that satisfies their
hypotheses. -/
def bq25898s_reg : RegMap where
  BQ25898S_REG_00 := 0x00
  BQ25898S_ENHIZ_MASK := 0x80
  BQ25898S_ENHIZ_SHIFT := 7
  BQ25898S_HIZ_ENABLE := 1
  BQ25898S_HIZ_DISABLE := 0
  BQ25898S_IINLIM_MASK := 0x3F
  BQ25898S_IINLIM_SHIFT := 0
  BQ25898S_IINLIM_BASE := 100
  BQ25898S_IINLIM_LSB := 50
  BQ25898S_REG_02 := 0x02
  BQ25898S_CONV_START_MASK := 0x80
  BQ25898S_CONV_START_SHIFT := 7
  BQ25898S_CONV_START := 1
  BQ25898S_CONV_RATE_MASK := 0x40
  BQ25898S_CONV_RATE_SHIFT := 6
  BQ25898S_ADC_CONTINUE_ENABLE := 1
  BQ25898S_ADC_CONTINUE_DISABLE := 0
  BQ25898S_AUTO_DPDM_EN_MASK := 0x01
  BQ25898S_AUTO_DPDM_EN_SHIFT := 0
  BQ25898S_AUTO_DPDM_ENABLE := 1
  BQ25898S_AUTO_DPDM_DISABLE := 0
  BQ25898S_REG_03 := 0x03
  BQ25898S_WDT_RESET_MASK := 0x40
  BQ25898S_WDT_RESET_SHIFT := 6
  BQ25898S_WDT_RESET := 1
  BQ25898S_CHG_CONFIG_MASK := 0x10
  BQ25898S_CHG_CONFIG_SHIFT := 4
  BQ25898S_CHG_ENABLE := 1
  BQ25898S_CHG_DISABLE := 0
  BQ25898S_REG_04 := 0x04
  BQ25898S_ICHG_MASK := 0x7F
  BQ25898S_ICHG_SHIFT := 0
  BQ25898S_ICHG_BASE := 0
  BQ25898S_ICHG_LSB := 64
  BQ25898S_REG_05 := 0x05
  BQ25898S_ITERM_MASK := 0x0F
  BQ25898S_ITERM_SHIFT := 0
  BQ25898S_ITERM_BASE := 64
  BQ25898S_ITERM_LSB := 64
  BQ25898S_REG_06 := 0x06
  BQ25898S_VREG_MASK := 0xFC
  BQ25898S_VREG_SHIFT := 2
  BQ25898S_VREG_BASE := 3840
  BQ25898S_VREG_LSB := 16
  BQ25898S_REG_07 := 0x07
  BQ25898S_EN_TERM_MASK := 0x80
  BQ25898S_EN_TERM_SHIFT := 7
  BQ25898S_TERM_ENABLE := 1
  BQ25898S_TERM_DISABLE := 0
  BQ25898S_WDT_MASK := 0x30
  BQ25898S_WDT_SHIFT := 4
  BQ25898S_WDT_DISABLE := 0
  BQ25898S_WDT_BASE := 0
  BQ25898S_WDT_LSB := 40
  BQ25898S_REG_0B := 0x0B
  BQ25898S_CHRG_STAT_MASK := 0x18
  BQ25898S_CHRG_STAT_SHIFT := 3
  BQ25898S_CHRG_STAT_IDLE := 0
  BQ25898S_CHRG_STAT_PRECHG := 1
  BQ25898S_CHRG_STAT_FASTCHG := 2
  BQ25898S_CHRG_STAT_CHGDONE := 3
  BQ25898S_REG_0C := 0x0C
  BQ25898S_REG_0D := 0x0D
  BQ25898S_FORCE_VINDPM_MASK := 0x80
  BQ25898S_FORCE_VINDPM_SHIFT := 7
  BQ25898S_FORCE_VINDPM_ENABLE := 1
  BQ25898S_FORCE_VINDPM_DISABLE := 0
  BQ25898S_VINDPM_MASK := 0x7F
  BQ25898S_VINDPM_SHIFT := 0
  BQ25898S_VINDPM_BASE := 2600
  BQ25898S_VINDPM_LSB := 100
  BQ25898S_REG_0E := 0x0E
  BQ25898S_BATV_MASK := 0x7F
  BQ25898S_BATV_SHIFT := 0
  BQ25898S_BATV_BASE := 2304
  BQ25898S_BATV_LSB := 20
  BQ25898S_REG_11 := 0x11
  BQ25898S_VBUSV_MASK := 0x7F
  BQ25898S_VBUSV_SHIFT := 0
  BQ25898S_VBUSV_BASE := 2600
  BQ25898S_VBUSV_LSB := 100
  BQ25898S_REG_12 := 0x12
  BQ25898S_ICHGR_MASK := 0x7F
  BQ25898S_ICHGR_SHIFT := 0
  BQ25898S_ICHGR_BASE := 0
  BQ25898S_ICHGR_LSB := 50
  BQ25898S_REG_13 := 0x13
  BQ25898S_VDPM_STAT_MASK := 0x80
  BQ25898S_IDPM_STAT_MASK := 0x40

/-! ## The I2C bus -/

/-- One SMBus transaction as the adapter sees it. -/
inductive Txn where
  | read (reg : Nat)
  | write (reg : Nat) (data : Nat)
  deriving DecidableEq

/-- The I2C client of the handle (`bq->client`) together with the device behind it.
`regs` is the register file of the charger, `log` the transactions issued so far, oldest
first, failed ones included.  `faults` holds the return codes of the transactions still to
come: a negative entry is the errno with which that transaction fails, any other entry
lets it succeed, and so does an exhausted list. -/
structure i2c_client where
  regs : Nat → Nat
  faults : List Int
  log : List Txn

/-- The return code the adapter gives to the next transaction. -/
def i2c_client.outcome (c : i2c_client) : Int := c.faults.headD 0

/-- The client once transaction `t` has been put on the bus. -/
def i2c_client.issue (c : i2c_client) (t : Txn) : i2c_client :=
  { c with faults := c.faults.tail, log := c.log ++ [t] }

/-- Kernel `i2c_smbus_read_byte_data`: the addressed byte, or a negative errno. -/
def i2c_smbus_read_byte_data (c : i2c_client) (reg : Nat) : i2c_client × Int :=
  if c.outcome < 0 then (c.issue (.read reg), c.outcome)
  else (c.issue (.read reg), ((c.regs reg % 256 : Nat) : Int))

/-- Kernel `i2c_smbus_write_byte_data`: stores the byte and returns 0, or leaves the
register file alone and returns a negative errno. -/
def i2c_smbus_write_byte_data (c : i2c_client) (reg data : Nat) : i2c_client × Int :=
  if c.outcome < 0 then (c.issue (.write reg data), c.outcome)
  else ({ c.issue (.write reg data) with
            regs := fun r => if r = reg then data else c.regs r }, 0)

/-! ## Register access -/

/-- `bq2589x_read_byte(bq, &data, reg)`: the client afterwards, the return value and the
byte stored through `data`.  On failure the C code stores nothing; the third component is
then 0 and no caller reads it. -/
def bq2589x_read_byte (c : i2c_client) (reg : Nat) : i2c_client × Int × Nat :=
  let r := i2c_smbus_read_byte_data c (reg % 256)
  if r.2 < 0 then (r.1, r.2, 0)
  else (r.1, 0, (r.2 % 256).toNat)

/-- `bq2589x_write_byte(bq, reg, data)`. -/
def bq2589x_write_byte (c : i2c_client) (reg data : Nat) : i2c_client × Int :=
  i2c_smbus_write_byte_data c (reg % 256) (data % 256)

/-- `bq2589x_update_bits(bq, reg, mask, data)`; `~mask` on a `u8` is `255 ^^^ mask`. -/
def bq2589x_update_bits (c : i2c_client) (reg mask data : Nat) : i2c_client × Int :=
  let r := bq2589x_read_byte c reg
  if r.2.1 ≠ 0 then (r.1, r.2.1)
  else
    let tmp := r.2.2
    let tmp := tmp &&& (255 ^^^ (mask % 256))
    let tmp := tmp ||| ((data % 256) &&& (mask % 256))
    bq2589x_write_byte r.1 reg tmp

/-! ## Charger operations

The functions that touch nothing of the handle but `bq->client` take and return the client. -/

/-- `bq2589x_enable_charger`. -/
def bq2589x_enable_charger (rm : RegMap) (c : i2c_client) : i2c_client × Int :=
  let val := (rm.BQ25898S_CHG_ENABLE <<< rm.BQ25898S_CHG_CONFIG_SHIFT) % 256
  bq2589x_update_bits c rm.BQ25898S_REG_03 rm.BQ25898S_CHG_CONFIG_MASK val

/-- `bq2589x_disable_charger`. -/
def bq2589x_disable_charger (rm : RegMap) (c : i2c_client) : i2c_client × Int :=
  let val := (rm.BQ25898S_CHG_DISABLE <<< rm.BQ25898S_CHG_CONFIG_SHIFT) % 256
  bq2589x_update_bits c rm.BQ25898S_REG_03 rm.BQ25898S_CHG_CONFIG_MASK val

/-- `bq2589x_enable_term`. -/
def bq2589x_enable_term (rm : RegMap) (c : i2c_client) (enable : Bool) : i2c_client × Int :=
  let val :=
    if enable then (rm.BQ25898S_TERM_ENABLE <<< rm.BQ25898S_EN_TERM_SHIFT) % 256
    else (rm.BQ25898S_TERM_DISABLE <<< rm.BQ25898S_EN_TERM_SHIFT) % 256
  bq2589x_update_bits c rm.BQ25898S_REG_07 rm.BQ25898S_EN_TERM_MASK val

/-- `bq2589x_adc_start`. -/
def bq2589x_adc_start (rm : RegMap) (c : i2c_client) (oneshot : Bool) : i2c_client × Int :=
  let r := bq2589x_read_byte c rm.BQ25898S_REG_02
  if r.2.1 < 0 then (r.1, r.2.1)
  else
    let val := r.2.2
    if (val &&& rm.BQ25898S_CONV_RATE_MASK) >>> rm.BQ25898S_CONV_RATE_SHIFT
        = rm.BQ25898S_ADC_CONTINUE_ENABLE then (r.1, 0)
    else if oneshot then
      bq2589x_update_bits r.1 rm.BQ25898S_REG_02 rm.BQ25898S_CONV_START_MASK
        (rm.BQ25898S_CONV_START <<< rm.BQ25898S_CONV_START_SHIFT)
    else
      bq2589x_update_bits r.1 rm.BQ25898S_REG_02 rm.BQ25898S_CONV_RATE_MASK
        (rm.BQ25898S_ADC_CONTINUE_ENABLE <<< rm.BQ25898S_CONV_RATE_SHIFT)

/-- `bq2589x_adc_read_battery_volt`: the voltage in mV, or the negative errno of the read. -/
def bq2589x_adc_read_battery_volt (rm : RegMap) (c : i2c_client) : i2c_client × Int :=
  let r := bq2589x_read_byte c rm.BQ25898S_REG_0E
  if r.2.1 < 0 then (r.1, r.2.1)
  else
    (r.1, ((rm.BQ25898S_BATV_BASE
      + ((r.2.2 &&& rm.BQ25898S_BATV_MASK) >>> rm.BQ25898S_BATV_SHIFT) * rm.BQ25898S_BATV_LSB
      : Nat) : Int))

/-- `bq2589x_adc_read_vbus_volt`: the voltage in mV, or the negative errno of the read. -/
def bq2589x_adc_read_vbus_volt (rm : RegMap) (c : i2c_client) : i2c_client × Int :=
  let r := bq2589x_read_byte c rm.BQ25898S_REG_11
  if r.2.1 < 0 then (r.1, r.2.1)
  else
    (r.1, ((rm.BQ25898S_VBUSV_BASE
      + ((r.2.2 &&& rm.BQ25898S_VBUSV_MASK) >>> rm.BQ25898S_VBUSV_SHIFT) * rm.BQ25898S_VBUSV_LSB
      : Nat) : Int))

/-- `bq2589x_adc_read_charge_current`: the current in mA, or the negative errno. -/
def bq2589x_adc_read_charge_current (rm : RegMap) (c : i2c_client) : i2c_client × Int :=
  let r := bq2589x_read_byte c rm.BQ25898S_REG_12
  if r.2.1 < 0 then (r.1, r.2.1)
  else
    (r.1, ((rm.BQ25898S_ICHGR_BASE
      + ((r.2.2 &&& rm.BQ25898S_ICHGR_MASK) >>> rm.BQ25898S_ICHGR_SHIFT) * rm.BQ25898S_ICHGR_LSB
      : Nat) : Int))

/-- The `u8` a C `int` is converted to. -/
def to_u8 (x : Int) : Nat := (x % 256).toNat

/-- The `u16` a C `int` is converted to. -/
def to_u16 (x : Int) : Nat := (x % 65536).toNat

/-- `bq2589x_set_chargecurrent`; C division truncates toward zero. -/
def bq2589x_set_chargecurrent (rm : RegMap) (c : i2c_client) (curr : Int) : i2c_client × Int :=
  let ichg := to_u8 ((curr - rm.BQ25898S_ICHG_BASE).tdiv rm.BQ25898S_ICHG_LSB)
  bq2589x_update_bits c rm.BQ25898S_REG_04 rm.BQ25898S_ICHG_MASK
    (ichg <<< rm.BQ25898S_ICHG_SHIFT)

/-- `bq2589x_set_term_current`. -/
def bq2589x_set_term_current (rm : RegMap) (c : i2c_client) (curr : Int) : i2c_client × Int :=
  let iterm := to_u8 ((curr - rm.BQ25898S_ITERM_BASE).tdiv rm.BQ25898S_ITERM_LSB)
  bq2589x_update_bits c rm.BQ25898S_REG_05 rm.BQ25898S_ITERM_MASK
    (iterm <<< rm.BQ25898S_ITERM_SHIFT)

/-- `bq2589x_set_chargevoltage`. -/
def bq2589x_set_chargevoltage (rm : RegMap) (c : i2c_client) (volt : Int) : i2c_client × Int :=
  let val := to_u8 ((volt - rm.BQ25898S_VREG_BASE).tdiv rm.BQ25898S_VREG_LSB)
  bq2589x_update_bits c rm.BQ25898S_REG_06 rm.BQ25898S_VREG_MASK
    (val <<< rm.BQ25898S_VREG_SHIFT)

/-- `bq2589x_set_input_volt_limit`. -/
def bq2589x_set_input_volt_limit (rm : RegMap) (c : i2c_client) (volt : Int) :
    i2c_client × Int :=
  let val := to_u8 ((volt - rm.BQ25898S_VINDPM_BASE).tdiv rm.BQ25898S_VINDPM_LSB)
  bq2589x_update_bits c rm.BQ25898S_REG_0D rm.BQ25898S_VINDPM_MASK
    (val <<< rm.BQ25898S_VINDPM_SHIFT)

/-- `bq2589x_set_input_current_limit`. -/
def bq2589x_set_input_current_limit (rm : RegMap) (c : i2c_client) (curr : Int) :
    i2c_client × Int :=
  let val := to_u8 ((curr - rm.BQ25898S_IINLIM_BASE).tdiv rm.BQ25898S_IINLIM_LSB)
  bq2589x_update_bits c rm.BQ25898S_REG_00 rm.BQ25898S_IINLIM_MASK
    (val <<< rm.BQ25898S_IINLIM_SHIFT)

/-- `bq2589x_set_watchdog_timer(bq, timeout)` with `timeout` a `u8`. -/
def bq2589x_set_watchdog_timer (rm : RegMap) (c : i2c_client) (timeout : Nat) :
    i2c_client × Int :=
  bq2589x_update_bits c rm.BQ25898S_REG_07 rm.BQ25898S_WDT_MASK
    (to_u8 ((((timeout % 256 : Nat) : Int) - rm.BQ25898S_WDT_BASE).tdiv rm.BQ25898S_WDT_LSB)
      <<< rm.BQ25898S_WDT_SHIFT)

/-- `bq2589x_disable_watchdog_timer`. -/
def bq2589x_disable_watchdog_timer (rm : RegMap) (c : i2c_client) : i2c_client × Int :=
  let val := (rm.BQ25898S_WDT_DISABLE <<< rm.BQ25898S_WDT_SHIFT) % 256
  bq2589x_update_bits c rm.BQ25898S_REG_07 rm.BQ25898S_WDT_MASK val

/-- `bq2589x_reset_watchdog_timer`. -/
def bq2589x_reset_watchdog_timer (rm : RegMap) (c : i2c_client) : i2c_client × Int :=
  let val := (rm.BQ25898S_WDT_RESET <<< rm.BQ25898S_WDT_RESET_SHIFT) % 256
  bq2589x_update_bits c rm.BQ25898S_REG_03 rm.BQ25898S_WDT_RESET_MASK val

/-- `bq2589x_enter_hiz_mode`. -/
def bq2589x_enter_hiz_mode (rm : RegMap) (c : i2c_client) : i2c_client × Int :=
  let val := (rm.BQ25898S_HIZ_ENABLE <<< rm.BQ25898S_ENHIZ_SHIFT) % 256
  bq2589x_update_bits c rm.BQ25898S_REG_00 rm.BQ25898S_ENHIZ_MASK val

/-- `bq2589x_exit_hiz_mode`. -/
def bq2589x_exit_hiz_mode (rm : RegMap) (c : i2c_client) : i2c_client × Int :=
  let val := (rm.BQ25898S_HIZ_DISABLE <<< rm.BQ25898S_ENHIZ_SHIFT) % 256
  bq2589x_update_bits c rm.BQ25898S_REG_00 rm.BQ25898S_ENHIZ_MASK val

/-- `bq2589x_get_hiz_mode(bq, &state)`: the client, the return value and the byte stored
through `state` (0 when the read fails and nothing is stored). -/
def bq2589x_get_hiz_mode (rm : RegMap) (c : i2c_client) : i2c_client × Int × Nat :=
  let r := bq2589x_read_byte c rm.BQ25898S_REG_00
  if r.2.1 ≠ 0 then (r.1, r.2.1, 0)
  else (r.1, 0, ((r.2.2 &&& rm.BQ25898S_ENHIZ_MASK) >>> rm.BQ25898S_ENHIZ_SHIFT) % 256)

/-- `bq2589x_enable_auto_dpdm`. -/
def bq2589x_enable_auto_dpdm (rm : RegMap) (c : i2c_client) (enable : Bool) :
    i2c_client × Int :=
  let val :=
    if enable then (rm.BQ25898S_AUTO_DPDM_ENABLE <<< rm.BQ25898S_AUTO_DPDM_EN_SHIFT) % 256
    else (rm.BQ25898S_AUTO_DPDM_DISABLE <<< rm.BQ25898S_AUTO_DPDM_EN_SHIFT) % 256
  bq2589x_update_bits c rm.BQ25898S_REG_02 rm.BQ25898S_AUTO_DPDM_EN_MASK val

/-- `bq2589x_set_absolute_vindpm`. -/
def bq2589x_set_absolute_vindpm (rm : RegMap) (c : i2c_client) (enable : Bool) :
    i2c_client × Int :=
  let val :=
    if enable then (rm.BQ25898S_FORCE_VINDPM_ENABLE <<< rm.BQ25898S_FORCE_VINDPM_SHIFT) % 256
    else (rm.BQ25898S_FORCE_VINDPM_DISABLE <<< rm.BQ25898S_FORCE_VINDPM_SHIFT) % 256
  bq2589x_update_bits c rm.BQ25898S_REG_0D rm.BQ25898S_FORCE_VINDPM_MASK val

/-! ## The device handle -/

/-- `struct bq2589x_config`. -/
structure bq2589x_config where
  enable_auto_dpdm : Bool
  charge_voltage : Int
  charge_current : Int
  iindpm_threshold : Int
  vindpm_threshold : Int
  enable_term : Bool
  term_current : Int
  use_absolute_vindpm : Bool

/-- A `struct power_supply` as far as the driver uses it: what `get_property` stores for
`POWER_SUPPLY_PROP_CAPACITY`, or `none` when it stores nothing. -/
structure power_supply where
  capacity : Option Int

/-- A `struct delayed_work` as far as the driver uses it: whether the work is queued, and
how many times `schedule_delayed_work` has been called on it. -/
structure delayed_work where
  pending : Bool
  scheduled : Nat

/-- `struct bq2589x`, the fields the charge control reads or writes.  `batt_psy` is `none`
for a NULL pointer. -/
structure bq2589x where
  client : i2c_client
  prechg : Bool
  cfg : bq2589x_config
  monitor_work : delayed_work
  rsoc : Int
  batt_psy : Option power_supply

/-- Kernel `schedule_delayed_work(&bq->monitor_work, 10 * HZ)`. -/
def schedule_delayed_work (bq : bq2589x) : bq2589x :=
  { bq with monitor_work :=
      { pending := true, scheduled := bq.monitor_work.scheduled + 1 } }

/-- Kernel `cancel_delayed_work_sync(&bq->monitor_work)`: on return the work is neither
queued nor running. -/
def cancel_delayed_work_sync (bq : bq2589x) : bq2589x :=
  { bq with monitor_work := { bq.monitor_work with pending := false } }

/-- The handle `bq2589x_charger_probe` gets from `devm_kzalloc` and fills in before it
publishes it in `g_bq`: every field zero except the client, the configuration and the
battery supply looked up by name. -/
def probed_handle (c : i2c_client) (cfg : bq2589x_config) (battery : Option power_supply) :
    bq2589x :=
  { client := c, prechg := false, cfg := cfg,
    monitor_work := { pending := false, scheduled := 0 }, rsoc := 0, batt_psy := battery }

/-! ## Initialisation and charge profile -/

/-- `bq2589x_init_device`. -/
def bq2589x_init_device (rm : RegMap) (cfg : bq2589x_config) (c : i2c_client) :
    i2c_client × Int :=
  let r := bq2589x_disable_watchdog_timer rm c
  if r.2 < 0 then r
  else
    let r := bq2589x_enable_auto_dpdm rm r.1 false
    if r.2 < 0 then r
    else
      let r := bq2589x_enable_term rm r.1 cfg.enable_term
      if r.2 < 0 then r
      else
        let r := bq2589x_set_absolute_vindpm rm r.1 true
        if r.2 < 0 then r
        else
          let r := bq2589x_disable_charger rm r.1
          if r.2 < 0 then r
          else bq2589x_adc_start rm r.1 false

/-- `bq2589x_read_batt_rsoc`; `battery` is what `power_supply_get_by_name("battery")`
returns at the time of the call. -/
def bq2589x_read_batt_rsoc (battery : Option power_supply) (bq : bq2589x) : bq2589x × Int :=
  let bq := if bq.batt_psy.isNone then { bq with batt_psy := battery } else bq
  match bq.batt_psy with
  | some psy => (bq, psy.capacity.getD 0)
  | none => (bq, 50)

/-- The local `ret` of `bq2589x_adjust_absolute_vindpm` is read before it is assigned in
the branch guarded by `vbus_volt < 0`.  That branch cannot be taken, `vbus_volt` being a
`u16`; this constant stands for the value it would return. -/
def ret_unassigned : Int := 0

/-- `bq2589x_adjust_absolute_vindpm`; `vbus_volt` and `vindpm_volt` are `u16`. -/
def bq2589x_adjust_absolute_vindpm (rm : RegMap) (c : i2c_client) : i2c_client × Int :=
  let r := bq2589x_adc_read_vbus_volt rm c
  let vbus_volt : Nat := to_u16 r.2
  if vbus_volt < 0 then (r.1, ret_unassigned)
  else
    let vindpm_volt : Nat :=
      if vbus_volt < 6000 then to_u16 ((vbus_volt : Int) - 600)
      else to_u16 ((vbus_volt : Int) - 1200)
    let w := bq2589x_set_input_volt_limit rm r.1 (vindpm_volt : Int)
    if w.2 < 0 then w else (w.1, 0)

/-- `bq2589x_set_charge_profile`. -/
def bq2589x_set_charge_profile (rm : RegMap) (cfg : bq2589x_config) (c : i2c_client) :
    i2c_client × Int :=
  let r := bq2589x_set_chargevoltage rm c cfg.charge_voltage
  if r.2 < 0 then r
  else
    let r := bq2589x_set_chargecurrent rm r.1 cfg.charge_current
    if r.2 < 0 then r
    else
      let r := bq2589x_set_term_current rm r.1 cfg.term_current
      if r.2 < 0 then r
      else
        let r := bq2589x_set_input_current_limit rm r.1 cfg.iindpm_threshold
        if r.2 < 0 then r
        else bq2589x_adjust_absolute_vindpm rm r.1

/-! ## Adapter events, monitor and interrupt work -/

/-- `bq2589x_adapter_in_handler`, acting on the global `g_bq` (`none` while no driver is
loaded); `battery` is what `power_supply_get_by_name("battery")` would return. -/
def bq2589x_adapter_in_handler (rm : RegMap) (battery : Option power_supply)
    (g_bq : Option bq2589x) : Option bq2589x :=
  match g_bq with
  | none => none
  | some bq =>
    let r := bq2589x_set_charge_profile rm bq.cfg bq.client
    let bq := { bq with client := r.1 }
    if r.2 ≠ 0 then some bq
    else
      let v := bq2589x_adc_read_battery_volt rm bq.client
      let bq := { bq with client := v.1 }
      let vbat := v.2
      if vbat < 0 then some bq
      else if vbat < 3500 then
        some (schedule_delayed_work { bq with prechg := true })
      else
        let q := bq2589x_read_batt_rsoc battery bq
        let bq : bq2589x := { q.1 with rsoc := q.2 }
        if bq.rsoc > 95 then some bq
        else
          let e := bq2589x_enable_charger rm bq.client
          let bq := { bq with client := e.1 }
          if e.2 < 0 then some bq
          else
            let w := bq2589x_set_watchdog_timer rm bq.client 40
            let bq := { bq with client := w.1 }
            some (schedule_delayed_work bq)

/-- `bq2589x_adapter_out_handler`. -/
def bq2589x_adapter_out_handler (rm : RegMap) (g_bq : Option bq2589x) : Option bq2589x :=
  match g_bq with
  | none => none
  | some bq =>
    let r := bq2589x_disable_charger rm bq.client
    let bq := { bq with client := r.1 }
    let r := bq2589x_disable_watchdog_timer rm bq.client
    let bq := { bq with client := r.1 }
    some (cancel_delayed_work_sync bq)

/-- `bq2589x_monitor_workfunc`, run on the handle that contains the work item. -/
def bq2589x_monitor_workfunc (rm : RegMap) (bq : bq2589x) : bq2589x :=
  if bq.prechg then
    let v := bq2589x_adc_read_battery_volt rm bq.client
    let bq := { bq with client := v.1 }
    let vbat_volt := v.2
    if vbat_volt < 0 then schedule_delayed_work bq
    else if vbat_volt < 3500 then schedule_delayed_work bq
    else
      let e := bq2589x_enable_charger rm bq.client
      let bq := { bq with client := e.1 }
      if e.2 < 0 then schedule_delayed_work bq
      else
        let w := bq2589x_set_watchdog_timer rm bq.client 40
        let bq := { bq with client := w.1 }
        schedule_delayed_work { bq with prechg := false }
  else
    let c := (bq2589x_reset_watchdog_timer rm bq.client).1
    let c := (bq2589x_adc_read_vbus_volt rm c).1
    let c := (bq2589x_adc_read_battery_volt rm c).1
    let c := (bq2589x_adc_read_charge_current rm c).1
    let c := (bq2589x_read_byte c rm.BQ25898S_REG_13).1
    schedule_delayed_work { bq with client := c }

/-- `bq2589x_charger_irq_workfunc`. -/
def bq2589x_charger_irq_workfunc (rm : RegMap) (bq : bq2589x) : bq2589x :=
  let s := bq2589x_read_byte bq.client rm.BQ25898S_REG_0B
  let bq := { bq with client := s.1 }
  if s.2.1 ≠ 0 then bq
  else
    let status := s.2.2
    let f := bq2589x_read_byte bq.client rm.BQ25898S_REG_0C
    let bq := { bq with client := f.1 }
    if f.2.1 ≠ 0 then bq
    else
      let charge_status :=
        ((status &&& rm.BQ25898S_CHRG_STAT_MASK) >>> rm.BQ25898S_CHRG_STAT_SHIFT) % 256
      if charge_status = rm.BQ25898S_CHRG_STAT_IDLE then bq
      else if charge_status = rm.BQ25898S_CHRG_STAT_PRECHG then bq
      else if charge_status = rm.BQ25898S_CHRG_STAT_FASTCHG then bq
      else if charge_status = rm.BQ25898S_CHRG_STAT_CHGDONE then
        { bq with client := (bq2589x_disable_charger rm bq.client).1 }
      else bq

/-- The workqueue running the monitor work when it is due: a work that is not queued does
not run; a queued one is taken off the queue and its function is called. -/
def run_monitor_work (rm : RegMap) (g_bq : Option bq2589x) : Option bq2589x :=
  match g_bq with
  | none => none
  | some bq =>
    if bq.monitor_work.pending then
      some (bq2589x_monitor_workfunc rm
        { bq with monitor_work := { bq.monitor_work with pending := false } })
    else some bq

/-- What can happen to a loaded driver: the two adapter events, the monitor work coming
due, the interrupt work running after an interrupt, and the charger changing one of its
own registers (ADC results, status, fault). -/
inductive Event where
  | adapter_in (battery : Option power_supply)
  | adapter_out
  | monitor_tick
  | irq
  | device (reg : Nat) (data : Nat)

/-- Whether an event is an adapter-connect. -/
def Event.is_adapter_in : Event → Bool
  | .adapter_in _ => true
  | _ => false

/-- One event, handlers taken as atomic. -/
def Event.apply (rm : RegMap) (g_bq : Option bq2589x) : Event → Option bq2589x
  | .adapter_in battery => bq2589x_adapter_in_handler rm battery g_bq
  | .adapter_out => bq2589x_adapter_out_handler rm g_bq
  | .monitor_tick => run_monitor_work rm g_bq
  | .irq => g_bq.map (bq2589x_charger_irq_workfunc rm)
  | .device reg data =>
    g_bq.map fun bq =>
      { bq with client :=
          { bq.client with regs := fun r => if r = reg then data % 256 else bq.client.regs r } }

/-- A sequence of events, oldest first. -/
def run_events (rm : RegMap) (g_bq : Option bq2589x) (es : List Event) : Option bq2589x :=
  es.foldl (Event.apply rm) g_bq

/-! ## Observations -/

/-- The transactions issued between two states of the client. -/
def issued (before after : i2c_client) : List Txn :=
  after.log.drop before.log.length

/-- The register writes among a list of transactions. -/
def writes (l : List Txn) : List Txn :=
  l.filter fun t => match t with
    | .write _ _ => true
    | .read _ => false

/-- Whether the CHG_CONFIG field of register 0x03 holds the enable value. -/
def charging_enabled (rm : RegMap) (c : i2c_client) : Bool :=
  (c.regs (rm.BQ25898S_REG_03 % 256) % 256 &&& rm.BQ25898S_CHG_CONFIG_MASK)
    >>> rm.BQ25898S_CHG_CONFIG_SHIFT = rm.BQ25898S_CHG_ENABLE

/-- A register file given by the list of its non-zero registers. -/
def regs_of (l : List (Nat × Nat)) : Nat → Nat := fun r => (l.lookup r).getD 0

/-- A charger on a healthy bus: AUTO_DPDM on, charging off, watchdog at 40 s, VBUS at
5000 mV (raw 24), battery at 4304 mV (raw 100), charge status "done". -/
def sample_client : i2c_client :=
  { regs := regs_of [(0x00, 0x48), (0x02, 0x11), (0x03, 0x0A), (0x07, 0x9D), (0x0B, 0x18),
              (0x0E, 100), (0x11, 24)],
    faults := [],
    log := [] }

/-- A configuration as the device tree could supply it. -/
def sample_cfg : bq2589x_config :=
  { enable_auto_dpdm := true, charge_voltage := 4200, charge_current := 2000,
    iindpm_threshold := 1500, vindpm_threshold := 4400, enable_term := true,
    term_current := 256, use_absolute_vindpm := true }

/-- The sample charger with the raw VBUS reading of register 0x11 set to `raw`. -/
def client_with_vbus (raw : Nat) : i2c_client :=
  { sample_client with regs := fun r => if r = 0x11 then raw else sample_client.regs r }

/-- The sample charger on a bus whose next transaction fails with -5 (EIO). -/
def client_next_fails : i2c_client :=
  { sample_client with faults := [-5] }

/-- The sample charger on a bus whose ninth transaction fails with -5 (EIO): in
`bq2589x_set_charge_profile` that is the VBUS read, after four successful updates. -/
def client_vbus_read_fails : i2c_client :=
  { sample_client with faults := [0, 0, 0, 0, 0, 0, 0, 0, -5] }

/-- The sample charger on a bus whose thirteenth transaction fails with -5 (EIO): in
`bq2589x_adapter_in_handler` that is the read of register 0x03 inside
`bq2589x_enable_charger`, after the charge profile and the battery voltage read. -/
def client_enable_fails : i2c_client :=
  { sample_client with faults := [0, 0, 0, 0, 0, 0, 0, 0, 0, 0, 0, 0, -5] }

/-- The handle of a freshly probed driver on the sample charger, no fuel gauge found. -/
def sample_handle : bq2589x :=
  probed_handle sample_client sample_cfg none

/-- The freshly probed handle on the bus whose thirteenth transaction fails. -/
def handle_enable_fails : bq2589x :=
  probed_handle client_enable_fails sample_cfg none

/-- The sample charger on a bus whose fifth transaction fails with -5 (EIO): in
`bq2589x_init_device` that is the read inside the third step, `bq2589x_enable_term`. -/
def client_term_fails : i2c_client :=
  { sample_client with faults := [0, 0, 0, 0, -5] }

/-- The sample handle with the precharge flag set. -/
def sample_handle_prechg : bq2589x :=
  { sample_handle with prechg := true }

/-- The sample handle with the precharge flag set, on a bus whose second transaction fails
with -5 (EIO): in a monitor tick that is the read of register 0x03 inside
`bq2589x_enable_charger`, after the battery voltage read. -/
def handle_prechg_enable_fails : bq2589x :=
  { sample_handle with prechg := true, client := { sample_client with faults := [0, -5] } }

/-- The freshly probed handle on a bus whose fourteenth transaction fails with -5 (EIO):
after an adapter-in that stops at a low battery voltage (twelve transactions) and the
voltage read of the first monitor tick, that is the read of register 0x03 inside
`bq2589x_enable_charger`. -/
def handle_tick_enable_fails : bq2589x :=
  probed_handle
    { sample_client with faults := [0, 0, 0, 0, 0, 0, 0, 0, 0, 0, 0, 0, 0, -5] }
    sample_cfg none

/-! ## Bytes and bits -/

theorem testBit_255 (i : Nat) : (255 : Nat).testBit i = decide (i < 8) := by
  have h := Nat.testBit_two_pow_sub_one 8 i
  norm_num at h
  simpa using h

theorem testBit_mod_256 (x i : Nat) :
    (x % 256).testBit i = (decide (i < 8) && x.testBit i) := by
  have h := Nat.testBit_mod_two_pow x 8 i
  norm_num at h
  simpa using h

/-- Outside the mask the merged byte is the old byte. -/
theorem rmw_outside_mask (old mask data : Nat) :
    ((old % 256 &&& (255 ^^^ (mask % 256))) ||| ((data % 256) &&& (mask % 256)))
        &&& (255 ^^^ (mask % 256))
      = old &&& (255 ^^^ (mask % 256)) := by
  apply Nat.eq_of_testBit_eq
  intro i
  simp only [Nat.testBit_and, Nat.testBit_or, Nat.testBit_xor, testBit_255, testBit_mod_256]
  by_cases h : i < 8 <;> simp [h]
  cases old.testBit i <;> cases mask.testBit i <;> simp

/-- Inside the mask the merged byte is the new data. -/
theorem rmw_inside_mask (old mask data : Nat) :
    ((old % 256 &&& (255 ^^^ (mask % 256))) ||| ((data % 256) &&& (mask % 256)))
        &&& (mask % 256)
      = (data % 256) &&& (mask % 256) := by
  apply Nat.eq_of_testBit_eq
  intro i
  simp only [Nat.testBit_and, Nat.testBit_or, Nat.testBit_xor, testBit_255, testBit_mod_256]
  by_cases h : i < 8 <;> simp [h]
  cases old.testBit i <;> cases mask.testBit i <;> simp

/-- The merged byte is a byte. -/
theorem rmw_lt (old mask data : Nat) :
    ((old % 256 &&& (255 ^^^ (mask % 256))) ||| ((data % 256) &&& (mask % 256))) < 256 := by
  have h : ∀ i, i ≥ 8 → (((old % 256 &&& (255 ^^^ (mask % 256)))
      ||| ((data % 256) &&& (mask % 256)))).testBit i = false := by
    intro i hi
    have h8 : ¬ i < 8 := by omega
    simp [Nat.testBit_and, Nat.testBit_or, Nat.testBit_xor, testBit_255, testBit_mod_256, h8]
  simpa using Nat.lt_pow_two_of_testBit _ h

/-- Reading a field that was written with a value that fits gives the value back. -/
theorem field_value_back (old mask shift v : Nat) (hmask : mask < 256)
    (hfit : (v <<< shift) &&& mask = v <<< shift) :
    ((((old % 256 &&& (255 ^^^ (mask % 256))) ||| (((v <<< shift) % 256) &&& (mask % 256)))
        % 256) &&& mask) >>> shift = v := by
  have hd : v <<< shift < 256 := by
    have := @Nat.and_le_right (v <<< shift) mask
    omega
  rw [Nat.mod_eq_of_lt (rmw_lt _ _ _)]
  have hm : mask = mask % 256 := (Nat.mod_eq_of_lt hmask).symm
  conv_lhs => rw [hm]
  rw [show (mask % 256) % 256 = mask % 256 from by simp, rmw_inside_mask, ← hm,
    Nat.mod_eq_of_lt hd, hfit, Nat.shiftLeft_shiftRight]

theorem one_shiftLeft_lt (s : Nat) (hs : s < 8) : 1 <<< s < 256 := by
  interval_cases s <;> decide

/-! ## Register access -/

theorem read_byte_fail (c : i2c_client) (reg : Nat) (h : c.outcome < 0) :
    bq2589x_read_byte c reg = (c.issue (.read (reg % 256)), c.outcome, 0) := by
  simp [bq2589x_read_byte, i2c_smbus_read_byte_data, h]

theorem read_byte_ok (c : i2c_client) (reg : Nat) (h : ¬ c.outcome < 0) :
    bq2589x_read_byte c reg
      = (c.issue (.read (reg % 256)), 0, c.regs (reg % 256) % 256) := by
  have h1 : ¬ ((c.regs (reg % 256) : Int) % 256 < 0) := by omega
  have h2 : ((c.regs (reg % 256) : Int) % 256).toNat = c.regs (reg % 256) % 256 := by omega
  simp [bq2589x_read_byte, i2c_smbus_read_byte_data, h, h1, h2]

theorem read_byte_value_of_ok (c : i2c_client) (reg : Nat)
    (h : (bq2589x_read_byte c reg).2.1 = 0) :
    (bq2589x_read_byte c reg).2.2 = c.regs (reg % 256) % 256 := by
  by_cases h1 : c.outcome < 0
  · rw [read_byte_fail c reg h1] at h
    simp at h
    omega
  · rw [read_byte_ok c reg h1]

theorem update_bits_fail (c : i2c_client) (reg mask data : Nat) (h : c.outcome < 0) :
    bq2589x_update_bits c reg mask data = (c.issue (.read (reg % 256)), c.outcome) := by
  have h0 : c.outcome ≠ 0 := by omega
  simp [bq2589x_update_bits, read_byte_fail c reg h, h0]

theorem update_bits_ok (c : i2c_client) (reg mask data : Nat) (h : ¬ c.outcome < 0) :
    bq2589x_update_bits c reg mask data
      = bq2589x_write_byte (c.issue (.read (reg % 256))) reg
          ((c.regs (reg % 256) % 256 &&& (255 ^^^ (mask % 256)))
            ||| ((data % 256) &&& (mask % 256))) := by
  simp [bq2589x_update_bits, read_byte_ok c reg h]

theorem update_bits_regs_of_ok (c : i2c_client) (reg mask data : Nat)
    (h : (bq2589x_update_bits c reg mask data).2 = 0) :
    (bq2589x_update_bits c reg mask data).1.regs (reg % 256)
      = (c.regs (reg % 256) % 256 &&& (255 ^^^ (mask % 256)))
          ||| ((data % 256) &&& (mask % 256)) := by
  by_cases h1 : c.outcome < 0
  · rw [update_bits_fail c reg mask data h1] at h
    simp at h
    omega
  · rw [update_bits_ok c reg mask data h1] at h ⊢
    simp only [bq2589x_write_byte, i2c_smbus_write_byte_data] at h ⊢
    split at h
    · simp at h
      omega
    · rename_i h2
      simp [if_neg h2, Nat.mod_eq_of_lt (rmw_lt _ _ _)]

theorem get_hiz_mode_value_of_ok (rm : RegMap) (c : i2c_client)
    (h : (bq2589x_get_hiz_mode rm c).2.1 = 0) :
    (bq2589x_get_hiz_mode rm c).2.2
      = ((c.regs (rm.BQ25898S_REG_00 % 256) % 256 &&& rm.BQ25898S_ENHIZ_MASK)
          >>> rm.BQ25898S_ENHIZ_SHIFT) % 256 := by
  by_cases h1 : c.outcome < 0
  · have h0 : c.outcome ≠ 0 := by omega
    simp [bq2589x_get_hiz_mode, read_byte_fail c _ h1, h0] at h
  · simp [bq2589x_get_hiz_mode, read_byte_ok c _ h1]

/-! ## Read-modify-write -/

/-- C1: a successful `bq2589x_update_bits(reg, mask, data)` leaves every bit of register
`reg` outside `mask` as it was (`new & ~mask == old & ~mask`) and leaves every other
register unchanged. -/
theorem update_bits_frame (c : i2c_client) (reg mask data : Nat)
    (h : (bq2589x_update_bits c reg mask data).2 = 0) :
    (bq2589x_update_bits c reg mask data).1.regs (reg % 256) &&& (255 ^^^ (mask % 256))
        = c.regs (reg % 256) &&& (255 ^^^ (mask % 256))
      ∧ ∀ r, r ≠ reg % 256 → (bq2589x_update_bits c reg mask data).1.regs r = c.regs r := by
  by_cases h1 : c.outcome < 0
  · rw [update_bits_fail c reg mask data h1] at h
    simp at h
    omega
  · rw [update_bits_ok c reg mask data h1] at h ⊢
    simp only [bq2589x_write_byte, i2c_smbus_write_byte_data] at h ⊢
    split at h
    · simp at h
      omega
    · rename_i h2
      simp only [if_neg h2]
      constructor
      · simp [Nat.mod_eq_of_lt (rmw_lt _ _ _), rmw_outside_mask, i2c_client.issue]
      · intro r hr
        simp [hr, i2c_client.issue]

/-- C1 at the charge-enable update of the sample charger: the update succeeds, so the
other bits of register 0x03 and all other registers keep their values. -/
theorem update_bits_frame_witness :
    (bq2589x_update_bits sample_client 0x03 0x10 0x10).2 = 0
      ∧ (bq2589x_update_bits sample_client 0x03 0x10 0x10).1.regs (0x03 % 256)
            &&& (255 ^^^ (0x10 % 256))
          = sample_client.regs (0x03 % 256) &&& (255 ^^^ (0x10 % 256))
      ∧ ∀ r, r ≠ 0x03 % 256 →
          (bq2589x_update_bits sample_client 0x03 0x10 0x10).1.regs r = sample_client.regs r :=
  ⟨by decide, update_bits_frame sample_client 0x03 0x10 0x10 (by decide)⟩

/-- C2: for a field `(reg, mask, shift)` and a value `v` that fits in it, a successful
`bq2589x_update_bits(reg, mask, v << shift)` followed by a successful read of `reg` yields
`(byte & mask) >> shift == v`; with a one-bit HIZ field whose enable and disable values
are 1 and 0, `bq2589x_get_hiz_mode` reports 1 after `bq2589x_enter_hiz_mode` and 0 after
`bq2589x_exit_hiz_mode`. -/
theorem field_round_trip (rm : RegMap) (c : i2c_client) (reg mask shift v : Nat)
    (hmask : mask < 256) (hfit : (v <<< shift) &&& mask = v <<< shift)
    (hE : rm.BQ25898S_HIZ_ENABLE = 1) (hD : rm.BQ25898S_HIZ_DISABLE = 0)
    (hM : rm.BQ25898S_ENHIZ_MASK = 1 <<< rm.BQ25898S_ENHIZ_SHIFT)
    (hS : rm.BQ25898S_ENHIZ_SHIFT < 8) :
    ((bq2589x_update_bits c reg mask (v <<< shift)).2 = 0 →
      (bq2589x_read_byte (bq2589x_update_bits c reg mask (v <<< shift)).1 reg).2.1 = 0 →
      ((bq2589x_read_byte (bq2589x_update_bits c reg mask (v <<< shift)).1 reg).2.2 &&& mask)
        >>> shift = v)
    ∧ ((bq2589x_enter_hiz_mode rm c).2 = 0 →
        (bq2589x_get_hiz_mode rm (bq2589x_enter_hiz_mode rm c).1).2.1 = 0 →
        (bq2589x_get_hiz_mode rm (bq2589x_enter_hiz_mode rm c).1).2.2 = 1)
    ∧ ((bq2589x_exit_hiz_mode rm c).2 = 0 →
        (bq2589x_get_hiz_mode rm (bq2589x_exit_hiz_mode rm c).1).2.1 = 0 →
        (bq2589x_get_hiz_mode rm (bq2589x_exit_hiz_mode rm c).1).2.2 = 0) := by
  have hlt := one_shiftLeft_lt _ hS
  refine ⟨?_, ?_, ?_⟩
  · intro hupd hread
    rw [read_byte_value_of_ok _ _ hread, update_bits_regs_of_ok _ _ _ _ hupd]
    exact field_value_back _ _ _ _ hmask hfit
  · intro hupd hread
    rw [get_hiz_mode_value_of_ok _ _ hread]
    unfold bq2589x_enter_hiz_mode at hupd ⊢
    rw [update_bits_regs_of_ok _ _ _ _ hupd, hE, hM, Nat.mod_mod]
    have := field_value_back (c.regs (rm.BQ25898S_REG_00 % 256))
      (1 <<< rm.BQ25898S_ENHIZ_SHIFT) rm.BQ25898S_ENHIZ_SHIFT 1 hlt (Nat.and_self _)
    rw [this]
  · intro hupd hread
    rw [get_hiz_mode_value_of_ok _ _ hread]
    unfold bq2589x_exit_hiz_mode at hupd ⊢
    rw [update_bits_regs_of_ok _ _ _ _ hupd, hD, hM, Nat.mod_mod]
    have := field_value_back (c.regs (rm.BQ25898S_REG_00 % 256))
      (1 <<< rm.BQ25898S_ENHIZ_SHIFT) rm.BQ25898S_ENHIZ_SHIFT 0 hlt (by simp)
    rw [this]

/-- C2 on the sample charger with the data-sheet map: the watchdog field (register 0x07,
mask 0x30, shift 4) written with 1 reads back 1, and the HIZ state reads 1 after entering
and 0 after leaving HIZ mode; every update and read involved succeeds. -/
theorem field_round_trip_witness :
    ((bq2589x_update_bits sample_client 0x07 0x30 (1 <<< 4)).2 = 0
      ∧ (bq2589x_read_byte (bq2589x_update_bits sample_client 0x07 0x30 (1 <<< 4)).1 0x07).2.1
          = 0
      ∧ ((bq2589x_read_byte
            (bq2589x_update_bits sample_client 0x07 0x30 (1 <<< 4)).1 0x07).2.2 &&& 0x30)
          >>> 4 = 1)
    ∧ ((bq2589x_enter_hiz_mode bq25898s_reg sample_client).2 = 0
      ∧ (bq2589x_get_hiz_mode bq25898s_reg
          (bq2589x_enter_hiz_mode bq25898s_reg sample_client).1).2.1 = 0
      ∧ (bq2589x_get_hiz_mode bq25898s_reg
          (bq2589x_enter_hiz_mode bq25898s_reg sample_client).1).2.2 = 1)
    ∧ ((bq2589x_exit_hiz_mode bq25898s_reg sample_client).2 = 0
      ∧ (bq2589x_get_hiz_mode bq25898s_reg
          (bq2589x_exit_hiz_mode bq25898s_reg sample_client).1).2.1 = 0
      ∧ (bq2589x_get_hiz_mode bq25898s_reg
          (bq2589x_exit_hiz_mode bq25898s_reg sample_client).1).2.2 = 0) :=
  have h := field_round_trip bq25898s_reg sample_client 0x07 0x30 4 1
    (by decide) (by decide) rfl rfl (by decide) (by decide)
  ⟨⟨by decide, by decide, h.1 (by decide) (by decide)⟩,
   ⟨by decide, by decide, h.2.1 (by decide) (by decide)⟩,
   ⟨by decide, by decide, h.2.2 (by decide) (by decide)⟩⟩

/-- C3: if the initial bus read inside `bq2589x_update_bits` fails, the function returns
that read's error code, the read is the only transaction issued (no write), and the whole
register file is unchanged. -/
theorem update_bits_read_failure (c : i2c_client) (reg mask data : Nat)
    (h : (bq2589x_read_byte c reg).2.1 < 0) :
    (bq2589x_update_bits c reg mask data).2 = (bq2589x_read_byte c reg).2.1
      ∧ issued c (bq2589x_update_bits c reg mask data).1 = [.read (reg % 256)]
      ∧ writes (issued c (bq2589x_update_bits c reg mask data).1) = []
      ∧ (bq2589x_update_bits c reg mask data).1.regs = c.regs := by
  have h1 : c.outcome < 0 := by
    by_contra hn
    rw [read_byte_ok c reg hn] at h
    simp at h
  rw [update_bits_fail c reg mask data h1, read_byte_fail c reg h1]
  simp [issued, writes, i2c_client.issue]

/-- C3 on the sample charger when the next transaction fails with -5 (EIO): the update
returns -5 after its read and writes nothing. -/
theorem update_bits_read_failure_witness :
    (bq2589x_read_byte { sample_client with faults := [-5] } 0x03).2.1 = -5
      ∧ (bq2589x_update_bits { sample_client with faults := [-5] } 0x03 0x10 0x10).2
          = (bq2589x_read_byte { sample_client with faults := [-5] } 0x03).2.1
      ∧ issued { sample_client with faults := [-5] }
          (bq2589x_update_bits { sample_client with faults := [-5] } 0x03 0x10 0x10).1
          = [.read (0x03 % 256)]
      ∧ writes (issued { sample_client with faults := [-5] }
          (bq2589x_update_bits { sample_client with faults := [-5] } 0x03 0x10 0x10).1) = []
      ∧ (bq2589x_update_bits { sample_client with faults := [-5] } 0x03 0x10 0x10).1.regs
          = ({ sample_client with faults := [-5] } : i2c_client).regs :=
  ⟨by decide,
   update_bits_read_failure { sample_client with faults := [-5] } 0x03 0x10 0x10 (by decide)⟩

/-! ## Adaptive input voltage limit -/

/-- A VBUS voltage that was read lies between the base and the base plus 255 steps. -/
theorem vbus_volt_range (rm : RegMap) (c : i2c_client)
    (hok : 0 ≤ (bq2589x_adc_read_vbus_volt rm c).2) :
    ∃ n : Nat, (bq2589x_adc_read_vbus_volt rm c).2 = (n : Int)
      ∧ rm.BQ25898S_VBUSV_BASE ≤ n
      ∧ n ≤ rm.BQ25898S_VBUSV_BASE + 255 * rm.BQ25898S_VBUSV_LSB := by
  by_cases h1 : c.outcome < 0
  · simp [bq2589x_adc_read_vbus_volt, read_byte_fail c _ h1, h1] at hok
    omega
  · refine ⟨rm.BQ25898S_VBUSV_BASE
        + ((c.regs (rm.BQ25898S_REG_11 % 256) % 256 &&& rm.BQ25898S_VBUSV_MASK)
            >>> rm.BQ25898S_VBUSV_SHIFT) * rm.BQ25898S_VBUSV_LSB, ?_, ?_, ?_⟩
    · simp [bq2589x_adc_read_vbus_volt, read_byte_ok c _ h1]
    · omega
    · have h2 : c.regs (rm.BQ25898S_REG_11 % 256) % 256 < 256 := Nat.mod_lt _ (by norm_num)
      have h3 := @Nat.and_le_left (c.regs (rm.BQ25898S_REG_11 % 256) % 256)
        rm.BQ25898S_VBUSV_MASK
      have h4 : (c.regs (rm.BQ25898S_REG_11 % 256) % 256 &&& rm.BQ25898S_VBUSV_MASK)
          >>> rm.BQ25898S_VBUSV_SHIFT
            ≤ c.regs (rm.BQ25898S_REG_11 % 256) % 256 &&& rm.BQ25898S_VBUSV_MASK := by
        rw [Nat.shiftRight_eq_div_pow]
        exact Nat.div_le_self _ _
      have h5 : (c.regs (rm.BQ25898S_REG_11 % 256) % 256 &&& rm.BQ25898S_VBUSV_MASK)
          >>> rm.BQ25898S_VBUSV_SHIFT ≤ 255 := by omega
      have := Nat.mul_le_mul_right rm.BQ25898S_VBUSV_LSB h5
      omega

/-- C4: for every successfully read VBUS voltage `v`, `bq2589x_adjust_absolute_vindpm`
passes `v - 600` to `bq2589x_set_input_volt_limit` when `v < 6000` and `v - 1200` when
`v >= 6000`, and returns what that call returns (0 on success).  The register map has to
keep the voltage within `u16` and at or above 600 mV, as the data-sheet map does
(2600 mV to 15300 mV). -/
theorem adjust_absolute_vindpm_limit (rm : RegMap) (c : i2c_client) (v : Int)
    (hbase : 600 ≤ rm.BQ25898S_VBUSV_BASE)
    (hmax : rm.BQ25898S_VBUSV_BASE + 255 * rm.BQ25898S_VBUSV_LSB < 65536)
    (hv : (bq2589x_adc_read_vbus_volt rm c).2 = v) (hok : 0 ≤ v) :
    bq2589x_adjust_absolute_vindpm rm c =
      (let w := bq2589x_set_input_volt_limit rm (bq2589x_adc_read_vbus_volt rm c).1
                  (if v < 6000 then v - 600 else v - 1200)
       if w.2 < 0 then w else (w.1, 0)) := by
  subst hv
  obtain ⟨n, hn, h1, h2⟩ := vbus_volt_range rm c hok
  have e1 : to_u16 (n : Int) = n := by unfold to_u16; omega
  simp only [bq2589x_adjust_absolute_vindpm, hn, e1, Nat.not_lt_zero, if_false]
  by_cases h6 : n < 6000
  · have h6' : (n : Int) < 6000 := by omega
    have e2 : ((to_u16 ((n : Int) - 600) : Nat) : Int) = (n : Int) - 600 := by
      unfold to_u16; omega
    simp only [h6, h6', if_true, e2]
  · have h6' : ¬ (n : Int) < 6000 := by omega
    have e2 : ((to_u16 ((n : Int) - 1200) : Nat) : Int) = (n : Int) - 1200 := by
      unfold to_u16; omega
    simp only [h6, h6', if_false, e2]

/-- C4 with the data-sheet map: 5000 mV gives 4400 mV, 7000 mV gives 5800 mV and the
boundary 6000 mV gives 4800 mV. -/
theorem adjust_absolute_vindpm_limit_witness :
    bq2589x_adjust_absolute_vindpm bq25898s_reg sample_client =
        (let w := bq2589x_set_input_volt_limit bq25898s_reg
                    (bq2589x_adc_read_vbus_volt bq25898s_reg sample_client).1 4400
         if w.2 < 0 then w else (w.1, 0))
      ∧ bq2589x_adjust_absolute_vindpm bq25898s_reg (client_with_vbus 44) =
        (let w := bq2589x_set_input_volt_limit bq25898s_reg
                    (bq2589x_adc_read_vbus_volt bq25898s_reg (client_with_vbus 44)).1 5800
         if w.2 < 0 then w else (w.1, 0))
      ∧ bq2589x_adjust_absolute_vindpm bq25898s_reg (client_with_vbus 34) =
        (let w := bq2589x_set_input_volt_limit bq25898s_reg
                    (bq2589x_adc_read_vbus_volt bq25898s_reg (client_with_vbus 34)).1 4800
         if w.2 < 0 then w else (w.1, 0)) :=
  ⟨adjust_absolute_vindpm_limit bq25898s_reg sample_client 5000
      (by decide) (by decide) (by decide) (by decide),
   adjust_absolute_vindpm_limit bq25898s_reg (client_with_vbus 44) 7000
      (by decide) (by decide) (by decide) (by decide),
   adjust_absolute_vindpm_limit bq25898s_reg (client_with_vbus 34) 6000
      (by decide) (by decide) (by decide) (by decide)⟩

/-! ## Charge profile -/

/-- C5, the code at a failing VBUS read (-5): `bq2589x_adjust_absolute_vindpm` does not
return the error but 0, after reading and writing the input-voltage-limit register 0x0D
with a limit computed from the error code; `bq2589x_set_charge_profile` returns 0 as well,
and `bq2589x_adapter_in_handler` goes on to enable charging (write of 0x1A to register
0x03) and to schedule the monitor. -/
theorem vbus_read_failure_not_reported :
    (bq2589x_adc_read_vbus_volt bq25898s_reg client_next_fails).2 = -5
      ∧ (bq2589x_adjust_absolute_vindpm bq25898s_reg client_next_fails).2 = 0
      ∧ issued client_next_fails
          (bq2589x_adjust_absolute_vindpm bq25898s_reg client_next_fails).1
          = [.read 0x11, .read 0x0D, .write 0x0D 105]
      ∧ (bq2589x_set_charge_profile bq25898s_reg sample_cfg client_vbus_read_fails).2 = 0
      ∧ (issued client_vbus_read_fails
          (bq2589x_set_charge_profile bq25898s_reg sample_cfg client_vbus_read_fails).1).drop 8
          = [.read 0x11, .read 0x0D, .write 0x0D 105]
      ∧ (bq2589x_adapter_in_handler bq25898s_reg none
            (some (probed_handle client_vbus_read_fails sample_cfg none))).map
          (fun bq => (bq.monitor_work.pending, (issued client_vbus_read_fails bq.client).drop 11))
          = some (true, [.read 0x0E, .read 0x03, .write 0x03 0x1A, .read 0x07, .write 0x07 0x9D]) := by
  decide

/-! ## Adapter connected -/

/-- Reading the state of charge touches nothing of the handle but `batt_psy`. -/
theorem read_batt_rsoc_frame (battery : Option power_supply) (bq : bq2589x) :
    (bq2589x_read_batt_rsoc battery bq).1.client = bq.client
      ∧ (bq2589x_read_batt_rsoc battery bq).1.prechg = bq.prechg
      ∧ (bq2589x_read_batt_rsoc battery bq).1.cfg = bq.cfg
      ∧ (bq2589x_read_batt_rsoc battery bq).1.monitor_work = bq.monitor_work
      ∧ (bq2589x_read_batt_rsoc battery bq).1.rsoc = bq.rsoc := by
  obtain ⟨c, pc, cfg, mw, rs, psy⟩ := bq
  cases psy <;> cases battery <;> simp [bq2589x_read_batt_rsoc]

/-- C6 as amended: the decision table of `bq2589x_adapter_in_handler` once the charge
profile has been applied (client `c1`) and the battery voltage has been read (`v`), with
`q` the state of charge.  Below 3500 mV the precharge flag is set and the monitor is
scheduled, with no bus traffic after the voltage read.  At 3500 mV or more with a state
of charge above 95 nothing further happens.  Otherwise `bq2589x_enable_charger` is
called; if it fails the handler stops there, if it succeeds the watchdog update for 40 s
is issued and the monitor is scheduled.  Without a fuel gauge the state of charge is 50. -/
theorem adapter_in_decision (rm : RegMap) (battery : Option power_supply) (bq : bq2589x)
    (hprof : (bq2589x_set_charge_profile rm bq.cfg bq.client).2 = 0)
    (hvbat : 0 ≤ (bq2589x_adc_read_battery_volt rm
              (bq2589x_set_charge_profile rm bq.cfg bq.client).1).2) :
    let c1 := (bq2589x_set_charge_profile rm bq.cfg bq.client).1
    let v := bq2589x_adc_read_battery_volt rm c1
    let q := bq2589x_read_batt_rsoc battery { bq with client := v.1 }
    let e := bq2589x_enable_charger rm v.1
    let w := bq2589x_set_watchdog_timer rm e.1 40
    let out := bq2589x_adapter_in_handler rm battery (some bq)
    (v.2 < 3500 →
        out = some (schedule_delayed_work { bq with client := v.1, prechg := true }))
      ∧ (3500 ≤ v.2 → 95 < q.2 →
        out = some { bq with client := v.1, rsoc := q.2, batt_psy := q.1.batt_psy })
      ∧ (3500 ≤ v.2 → q.2 ≤ 95 → e.2 < 0 →
        out = some { bq with client := e.1, rsoc := q.2, batt_psy := q.1.batt_psy })
      ∧ (3500 ≤ v.2 → q.2 ≤ 95 → 0 ≤ e.2 →
        out = some (schedule_delayed_work
          { bq with client := w.1, rsoc := q.2, batt_psy := q.1.batt_psy }))
      ∧ (bq.batt_psy = none → battery = none → q.2 = 50) := by
  simp only [bq2589x_adapter_in_handler]
  generalize bq2589x_set_charge_profile rm bq.cfg bq.client = p at hprof hvbat ⊢
  generalize bq2589x_adc_read_battery_volt rm p.1 = v at hvbat ⊢
  have h0 : ¬ v.2 < 0 := by omega
  obtain ⟨f1, f2, f3, f4, -⟩ := read_batt_rsoc_frame battery { bq with client := v.1 }
  simp only [] at f1 f2 f3 f4
  refine ⟨?_, ?_, ?_, ?_, ?_⟩
  · intro h1
    simp [hprof, h0, h1]
  · intro h1 h2
    have h3 : ¬ v.2 < 3500 := by omega
    simp [hprof, h0, h3, h2, f1, f2, f3, f4]
  · intro h1 h2 h4
    have h3 : ¬ v.2 < 3500 := by omega
    have h5 := not_lt.mpr h2
    simp [hprof, h0, h3, h5, f1, f2, f3, f4, h4]
  · intro h1 h2 h4
    have h3 : ¬ v.2 < 3500 := by omega
    have h5 := not_lt.mpr h2
    have h6 := not_lt.mpr h4
    simp [hprof, h0, h3, h5, f1, f2, f3, f4, h6, schedule_delayed_work]
  · intro h1 h2
    simp [bq2589x_read_batt_rsoc, h1, h2]

/-- C6 as amended, on the sample charger (battery at 4304 mV, no fuel gauge, healthy bus):
the charge profile is applied, the voltage is read, and the handler ends in the last row
of the table: charging enabled, watchdog update issued, monitor scheduled. -/
theorem adapter_in_decision_witness :
    (bq2589x_set_charge_profile bq25898s_reg sample_handle.cfg sample_handle.client).2 = 0
      ∧ 0 ≤ (bq2589x_adc_read_battery_volt bq25898s_reg
          (bq2589x_set_charge_profile bq25898s_reg sample_handle.cfg
            sample_handle.client).1).2
      ∧ bq2589x_adapter_in_handler bq25898s_reg none (some sample_handle)
          = some (schedule_delayed_work
              { sample_handle with
                client := (bq2589x_set_watchdog_timer bq25898s_reg
                  (bq2589x_enable_charger bq25898s_reg
                    (bq2589x_adc_read_battery_volt bq25898s_reg
                      (bq2589x_set_charge_profile bq25898s_reg sample_handle.cfg
                        sample_handle.client).1).1).1 40).1,
                rsoc := 50,
                batt_psy := none }) :=
  ⟨by decide, by decide,
   (adapter_in_decision bq25898s_reg none sample_handle (by decide) (by decide)).2.2.2.1
     (by decide) (by decide) (by decide)⟩

/-- C6 as stated fails when the charge-enable update fails: with the profile applied, the
battery at 4304 mV and a state of charge of 50, the read inside `bq2589x_enable_charger`
fails with -5 and the handler returns with no write after the profile and with the
monitor not scheduled. -/
theorem adapter_in_enable_failure :
    (bq2589x_set_charge_profile bq25898s_reg handle_enable_fails.cfg
        handle_enable_fails.client).2 = 0
      ∧ (bq2589x_adc_read_battery_volt bq25898s_reg
          (bq2589x_set_charge_profile bq25898s_reg handle_enable_fails.cfg
            handle_enable_fails.client).1).2 = 4304
      ∧ (bq2589x_adapter_in_handler bq25898s_reg none (some handle_enable_fails)).map
          (fun bq => (bq.rsoc, bq.monitor_work.pending, bq.monitor_work.scheduled,
            (issued handle_enable_fails.client bq.client).drop 11))
          = some (50, false, 0, [.read 0x0E, .read 0x03]) := by
  decide

/-! ## Bus traffic of the register operations -/

theorem issued_of_log (c d : i2c_client) (l : List Txn) (h : d.log = c.log ++ l) :
    issued c d = l := by
  simp [issued, h]

theorem issued_trans (c d e : i2c_client) (l m : List Txn)
    (h1 : d.log = c.log ++ l) (h2 : e.log = d.log ++ m) :
    issued c e = l ++ m := by
  simp [issued, h1, h2]

theorem read_byte_log (c : i2c_client) (reg : Nat) :
    (bq2589x_read_byte c reg).1.log = c.log ++ [.read (reg % 256)] := by
  by_cases h : c.outcome < 0
  · simp [read_byte_fail c reg h, i2c_client.issue]
  · simp [read_byte_ok c reg h, i2c_client.issue]

theorem read_byte_regs (c : i2c_client) (reg : Nat) :
    (bq2589x_read_byte c reg).1.regs = c.regs := by
  by_cases h : c.outcome < 0
  · simp [read_byte_fail c reg h, i2c_client.issue]
  · simp [read_byte_ok c reg h, i2c_client.issue]

theorem read_byte_faults (c : i2c_client) (reg : Nat) :
    (bq2589x_read_byte c reg).1.faults = c.faults.tail := by
  by_cases h : c.outcome < 0
  · simp [read_byte_fail c reg h, i2c_client.issue]
  · simp [read_byte_ok c reg h, i2c_client.issue]

/-- The transactions of one `bq2589x_update_bits`: the read, and the write of the merged
byte unless the read failed. -/
theorem update_bits_log (c : i2c_client) (reg mask data : Nat) :
    (bq2589x_update_bits c reg mask data).1.log
      = c.log ++ (if c.outcome < 0 then [.read (reg % 256)]
          else [.read (reg % 256),
                .write (reg % 256)
                  ((c.regs (reg % 256) % 256 &&& (255 ^^^ (mask % 256)))
                    ||| ((data % 256) &&& (mask % 256)))]) := by
  by_cases h : c.outcome < 0
  · simp [update_bits_fail c reg mask data h, h, i2c_client.issue]
  · rw [update_bits_ok c reg mask data h]
    simp only [bq2589x_write_byte, i2c_smbus_write_byte_data, Nat.mod_eq_of_lt (rmw_lt _ _ _)]
    split <;> simp [h, i2c_client.issue]

/-- A register operation only touches the register it addresses. -/
theorem update_bits_regs_other (c : i2c_client) (reg mask data r : Nat)
    (hr : r ≠ reg % 256) :
    (bq2589x_update_bits c reg mask data).1.regs r = c.regs r := by
  by_cases h : c.outcome < 0
  · simp [update_bits_fail c reg mask data h, i2c_client.issue]
  · rw [update_bits_ok c reg mask data h]
    simp only [bq2589x_write_byte, i2c_smbus_write_byte_data]
    split <;> simp [hr, i2c_client.issue]
/-! ## Interrupt work -/

/-- C8: in a run of `bq2589x_charger_irq_workfunc` that reads the status register `s` and
the fault register `f` successfully, a charge status of "done" leads to exactly one
`bq2589x_disable_charger` (its read of register 0x03 and, unless that read fails, its one
write) and to nothing else; a status of idle, precharge or fast-charge leads to no
transaction beyond the two reads; and if either read fails nothing is written.  The
status codes of the map have to tell "done" from the other three. -/
theorem irq_workfunc_writes (rm : RegMap) (bq : bq2589x)
    (hd1 : rm.BQ25898S_CHRG_STAT_CHGDONE ≠ rm.BQ25898S_CHRG_STAT_IDLE)
    (hd2 : rm.BQ25898S_CHRG_STAT_CHGDONE ≠ rm.BQ25898S_CHRG_STAT_PRECHG)
    (hd3 : rm.BQ25898S_CHRG_STAT_CHGDONE ≠ rm.BQ25898S_CHRG_STAT_FASTCHG) :
    let s := bq2589x_read_byte bq.client rm.BQ25898S_REG_0B
    let f := bq2589x_read_byte s.1 rm.BQ25898S_REG_0C
    let charge_status :=
      ((s.2.2 &&& rm.BQ25898S_CHRG_STAT_MASK) >>> rm.BQ25898S_CHRG_STAT_SHIFT) % 256
    let out := bq2589x_charger_irq_workfunc rm bq
    (s.2.1 = 0 → f.2.1 = 0 → charge_status = rm.BQ25898S_CHRG_STAT_CHGDONE →
        out = { bq with client := (bq2589x_disable_charger rm f.1).1 }
        ∧ issued bq.client out.client
            = [.read (rm.BQ25898S_REG_0B % 256), .read (rm.BQ25898S_REG_0C % 256)]
              ++ issued f.1 (bq2589x_disable_charger rm f.1).1
        ∧ issued f.1 (bq2589x_disable_charger rm f.1).1
            = (if f.1.outcome < 0 then [.read (rm.BQ25898S_REG_03 % 256)]
               else [.read (rm.BQ25898S_REG_03 % 256),
                     .write (rm.BQ25898S_REG_03 % 256)
                       ((bq.client.regs (rm.BQ25898S_REG_03 % 256) % 256
                          &&& (255 ^^^ (rm.BQ25898S_CHG_CONFIG_MASK % 256)))
                        ||| ((rm.BQ25898S_CHG_DISABLE <<< rm.BQ25898S_CHG_CONFIG_SHIFT) % 256
                          &&& (rm.BQ25898S_CHG_CONFIG_MASK % 256)))])
        ∧ (writes (issued bq.client out.client)).length ≤ 1)
    ∧ (s.2.1 = 0 → f.2.1 = 0 →
        (charge_status = rm.BQ25898S_CHRG_STAT_IDLE
          ∨ charge_status = rm.BQ25898S_CHRG_STAT_PRECHG
          ∨ charge_status = rm.BQ25898S_CHRG_STAT_FASTCHG) →
        out = { bq with client := f.1 }
        ∧ issued bq.client out.client
            = [.read (rm.BQ25898S_REG_0B % 256), .read (rm.BQ25898S_REG_0C % 256)])
    ∧ ((s.2.1 ≠ 0 ∨ f.2.1 ≠ 0) → writes (issued bq.client out.client) = []) := by
  have ls := read_byte_log bq.client rm.BQ25898S_REG_0B
  have lf := read_byte_log (bq2589x_read_byte bq.client rm.BQ25898S_REG_0B).1
    rm.BQ25898S_REG_0C
  have rs := read_byte_regs bq.client rm.BQ25898S_REG_0B
  have rf := read_byte_regs (bq2589x_read_byte bq.client rm.BQ25898S_REG_0B).1
    rm.BQ25898S_REG_0C
  have ld := update_bits_log
    (bq2589x_read_byte (bq2589x_read_byte bq.client rm.BQ25898S_REG_0B).1
      rm.BQ25898S_REG_0C).1
    rm.BQ25898S_REG_03 rm.BQ25898S_CHG_CONFIG_MASK
    ((rm.BQ25898S_CHG_DISABLE <<< rm.BQ25898S_CHG_CONFIG_SHIFT) % 256)
  rw [rf, rs] at ld
  have l2 : (bq2589x_read_byte (bq2589x_read_byte bq.client rm.BQ25898S_REG_0B).1
      rm.BQ25898S_REG_0C).1.log
        = bq.client.log
          ++ [.read (rm.BQ25898S_REG_0B % 256), .read (rm.BQ25898S_REG_0C % 256)] := by
    rw [lf, ls, List.append_assoc]
    rfl
  simp only [bq2589x_charger_irq_workfunc]
  refine ⟨?_, ?_, ?_⟩
  · intro hs hf hc
    simp only [hs, hf, hc, ne_eq, not_true_eq_false, if_false, if_true, hd1, hd2, hd3]
    refine ⟨trivial, ?_, ?_, ?_⟩
    · simp only [bq2589x_disable_charger]
      rw [issued_of_log _ _ _ ld]
      exact issued_trans _ _ _ _ _ l2 ld
    · simp only [bq2589x_disable_charger]
      rw [issued_of_log _ _ _ ld, Nat.mod_mod]
    · simp only [bq2589x_disable_charger]
      rw [issued_trans _ _ _ _ _ l2 ld]
      split <;> simp [writes]
  · intro hs hf hc
    have e : issued bq.client (bq2589x_read_byte (bq2589x_read_byte bq.client
        rm.BQ25898S_REG_0B).1 rm.BQ25898S_REG_0C).1
          = [.read (rm.BQ25898S_REG_0B % 256), .read (rm.BQ25898S_REG_0C % 256)] :=
      issued_of_log _ _ _ l2
    simp only [hs, hf, ne_eq, not_true_eq_false, if_false]
    rcases hc with hc | hc | hc
    · simp only [hc, if_true]
      exact ⟨trivial, e⟩
    · split_ifs <;> exact ⟨rfl, e⟩
    · split_ifs <;> exact ⟨rfl, e⟩
  · intro h
    by_cases hs : (bq2589x_read_byte bq.client rm.BQ25898S_REG_0B).2.1 = 0
    · have hf : (bq2589x_read_byte (bq2589x_read_byte bq.client rm.BQ25898S_REG_0B).1
          rm.BQ25898S_REG_0C).2.1 ≠ 0 := by
        rcases h with h | h
        · exact absurd hs h
        · exact h
      simp only [hs, ne_eq, not_true_eq_false, if_false, hf, not_false_eq_true, if_true]
      rw [issued_of_log _ _ _ l2]
      simp [writes]
    · simp only [ne_eq, hs, not_false_eq_true, if_true]
      rw [issued_of_log _ _ _ ls]
      simp [writes]

/-- C8 on the sample charger, whose status register reads "done": both reads succeed and
the work ends with the client left by one `bq2589x_disable_charger`, with at most one
write on the bus. -/
theorem irq_workfunc_writes_witness :
    (bq2589x_read_byte sample_handle.client bq25898s_reg.BQ25898S_REG_0B).2.1 = 0
      ∧ (bq2589x_read_byte
          (bq2589x_read_byte sample_handle.client bq25898s_reg.BQ25898S_REG_0B).1
          bq25898s_reg.BQ25898S_REG_0C).2.1 = 0
      ∧ bq2589x_charger_irq_workfunc bq25898s_reg sample_handle
          = { sample_handle with
              client := (bq2589x_disable_charger bq25898s_reg
                (bq2589x_read_byte
                  (bq2589x_read_byte sample_handle.client bq25898s_reg.BQ25898S_REG_0B).1
                  bq25898s_reg.BQ25898S_REG_0C).1).1 }
      ∧ (writes (issued sample_handle.client
          (bq2589x_charger_irq_workfunc bq25898s_reg sample_handle).client)).length ≤ 1 :=
  have h := (irq_workfunc_writes bq25898s_reg sample_handle
    (by decide) (by decide) (by decide)).1 (by decide) (by decide) (by decide)
  ⟨by decide, by decide, h.1, h.2.2.2⟩

/-! ## Adapter removed -/

theorem disable_charger_log (rm : RegMap) (c : i2c_client) :
    (bq2589x_disable_charger rm c).1.log
      = c.log ++ (if c.outcome < 0 then [.read (rm.BQ25898S_REG_03 % 256)]
          else [.read (rm.BQ25898S_REG_03 % 256),
                .write (rm.BQ25898S_REG_03 % 256)
                  ((c.regs (rm.BQ25898S_REG_03 % 256) % 256
                     &&& (255 ^^^ (rm.BQ25898S_CHG_CONFIG_MASK % 256)))
                   ||| ((rm.BQ25898S_CHG_DISABLE <<< rm.BQ25898S_CHG_CONFIG_SHIFT) % 256
                     &&& (rm.BQ25898S_CHG_CONFIG_MASK % 256)))]) := by
  have h := update_bits_log c rm.BQ25898S_REG_03 rm.BQ25898S_CHG_CONFIG_MASK
    ((rm.BQ25898S_CHG_DISABLE <<< rm.BQ25898S_CHG_CONFIG_SHIFT) % 256)
  rw [Nat.mod_mod] at h
  exact h

theorem disable_watchdog_timer_log (rm : RegMap) (c : i2c_client) :
    (bq2589x_disable_watchdog_timer rm c).1.log
      = c.log ++ (if c.outcome < 0 then [.read (rm.BQ25898S_REG_07 % 256)]
          else [.read (rm.BQ25898S_REG_07 % 256),
                .write (rm.BQ25898S_REG_07 % 256)
                  ((c.regs (rm.BQ25898S_REG_07 % 256) % 256
                     &&& (255 ^^^ (rm.BQ25898S_WDT_MASK % 256)))
                   ||| ((rm.BQ25898S_WDT_DISABLE <<< rm.BQ25898S_WDT_SHIFT) % 256
                     &&& (rm.BQ25898S_WDT_MASK % 256)))]) := by
  have h := update_bits_log c rm.BQ25898S_REG_07 rm.BQ25898S_WDT_MASK
    ((rm.BQ25898S_WDT_DISABLE <<< rm.BQ25898S_WDT_SHIFT) % 256)
  rw [Nat.mod_mod] at h
  exact h

/-- The workqueue leaves a handle alone whose monitor work is not queued. -/
theorem run_monitor_work_idle (rm : RegMap) (bq : bq2589x)
    (h : bq.monitor_work.pending = false) (n : Nat) :
    (run_monitor_work rm)^[n] (some bq) = some bq := by
  induction n with
  | zero => rfl
  | succ k ih =>
    rw [Function.iterate_succ_apply]
    simp only [run_monitor_work, h, Bool.false_eq_true, if_false]
    exact ih

/-- C9: with a driver loaded, `bq2589x_adapter_out_handler` issues the charge-disable
update and then the watchdog-disable update, whatever their outcome, and returns with the
monitor work not queued, so that the workqueue runs no monitor tick afterwards however
often it is advanced. -/
theorem adapter_out_cancels_monitor (rm : RegMap) (bq : bq2589x) :
    let d := bq2589x_disable_charger rm bq.client
    let w := bq2589x_disable_watchdog_timer rm d.1
    let out := bq2589x_adapter_out_handler rm (some bq)
    out = some { bq with client := w.1,
                         monitor_work := { bq.monitor_work with pending := false } }
      ∧ (∀ n, (run_monitor_work rm)^[n] out = out)
      ∧ issued bq.client w.1 = issued bq.client d.1 ++ issued d.1 w.1
      ∧ issued bq.client d.1
          = (if bq.client.outcome < 0 then [.read (rm.BQ25898S_REG_03 % 256)]
             else [.read (rm.BQ25898S_REG_03 % 256),
                   .write (rm.BQ25898S_REG_03 % 256)
                     ((bq.client.regs (rm.BQ25898S_REG_03 % 256) % 256
                        &&& (255 ^^^ (rm.BQ25898S_CHG_CONFIG_MASK % 256)))
                      ||| ((rm.BQ25898S_CHG_DISABLE <<< rm.BQ25898S_CHG_CONFIG_SHIFT) % 256
                        &&& (rm.BQ25898S_CHG_CONFIG_MASK % 256)))])
      ∧ issued d.1 w.1
          = (if d.1.outcome < 0 then [.read (rm.BQ25898S_REG_07 % 256)]
             else [.read (rm.BQ25898S_REG_07 % 256),
                   .write (rm.BQ25898S_REG_07 % 256)
                     ((d.1.regs (rm.BQ25898S_REG_07 % 256) % 256
                        &&& (255 ^^^ (rm.BQ25898S_WDT_MASK % 256)))
                      ||| ((rm.BQ25898S_WDT_DISABLE <<< rm.BQ25898S_WDT_SHIFT) % 256
                        &&& (rm.BQ25898S_WDT_MASK % 256)))]) := by
  have l1 := disable_charger_log rm bq.client
  have l2 := disable_watchdog_timer_log rm (bq2589x_disable_charger rm bq.client).1
  refine ⟨rfl, ?_, ?_, ?_, ?_⟩
  · intro n
    exact run_monitor_work_idle rm _ rfl n
  · rw [issued_of_log _ _ _ l1, issued_of_log _ _ _ l2]
    exact issued_trans _ _ _ _ _ l1 l2
  · exact issued_of_log _ _ _ l1
  · exact issued_of_log _ _ _ l2

/-! ## Initialisation -/

/-- C10: `bq2589x_init_device` runs, in this order, the watchdog disable (`s1`), the
AUTO_DPDM update with the disable value (`s2`), the termination update with
`cfg.enable_term` (`s3`), the FORCE_VINDPM enable (`s4`), the charger disable (`s5`) and
the ADC start (`s6`).  It returns the result of the first step that fails, bus state
included, so that no later step has issued a transaction, and the result of the last step
if none fails before.  `cfg.enable_auto_dpdm` has no influence on it. -/
theorem init_device_sequence (rm : RegMap) (cfg : bq2589x_config) (c : i2c_client) :
    let s1 := bq2589x_disable_watchdog_timer rm c
    let s2 := bq2589x_enable_auto_dpdm rm s1.1 false
    let s3 := bq2589x_enable_term rm s2.1 cfg.enable_term
    let s4 := bq2589x_set_absolute_vindpm rm s3.1 true
    let s5 := bq2589x_disable_charger rm s4.1
    let s6 := bq2589x_adc_start rm s5.1 false
    let out := bq2589x_init_device rm cfg c
    (s1.2 < 0 → out = s1)
      ∧ (0 ≤ s1.2 → s2.2 < 0 → out = s2)
      ∧ (0 ≤ s1.2 → 0 ≤ s2.2 → s3.2 < 0 → out = s3)
      ∧ (0 ≤ s1.2 → 0 ≤ s2.2 → 0 ≤ s3.2 → s4.2 < 0 → out = s4)
      ∧ (0 ≤ s1.2 → 0 ≤ s2.2 → 0 ≤ s3.2 → 0 ≤ s4.2 → s5.2 < 0 → out = s5)
      ∧ (0 ≤ s1.2 → 0 ≤ s2.2 → 0 ≤ s3.2 → 0 ≤ s4.2 → 0 ≤ s5.2 → out = s6)
      ∧ s2 = bq2589x_update_bits s1.1 rm.BQ25898S_REG_02 rm.BQ25898S_AUTO_DPDM_EN_MASK
              ((rm.BQ25898S_AUTO_DPDM_DISABLE <<< rm.BQ25898S_AUTO_DPDM_EN_SHIFT) % 256)
      ∧ s3 = bq2589x_update_bits s2.1 rm.BQ25898S_REG_07 rm.BQ25898S_EN_TERM_MASK
              (((if cfg.enable_term then rm.BQ25898S_TERM_ENABLE
                 else rm.BQ25898S_TERM_DISABLE) <<< rm.BQ25898S_EN_TERM_SHIFT) % 256)
      ∧ s4 = bq2589x_update_bits s3.1 rm.BQ25898S_REG_0D rm.BQ25898S_FORCE_VINDPM_MASK
              ((rm.BQ25898S_FORCE_VINDPM_ENABLE <<< rm.BQ25898S_FORCE_VINDPM_SHIFT) % 256)
      ∧ (∀ b, bq2589x_init_device rm { cfg with enable_auto_dpdm := b } c = out) := by
  simp only [bq2589x_init_device]
  refine ⟨?_, ?_, ?_, ?_, ?_, ?_, ?_, ?_, ?_, ?_⟩
  · intro h1
    simp [h1]
  · intro h1 h2
    simp [not_lt.mpr h1, h2]
  · intro h1 h2 h3
    simp [not_lt.mpr h1, not_lt.mpr h2, h3]
  · intro h1 h2 h3 h4
    simp [not_lt.mpr h1, not_lt.mpr h2, not_lt.mpr h3, h4]
  · intro h1 h2 h3 h4 h5
    simp [not_lt.mpr h1, not_lt.mpr h2, not_lt.mpr h3, not_lt.mpr h4, h5]
  · intro h1 h2 h3 h4 h5
    simp [not_lt.mpr h1, not_lt.mpr h2, not_lt.mpr h3, not_lt.mpr h4, not_lt.mpr h5]
  · simp [bq2589x_enable_auto_dpdm]
  · cases cfg.enable_term <;> simp [bq2589x_enable_term]
  · simp [bq2589x_set_absolute_vindpm]
  · intro b
    trivial

/-- C10 when the read inside the third step fails with -5, with `enable_auto_dpdm` set in
the configuration: the first two steps succeed, `bq2589x_init_device` returns the result
of the third, -5, and the bus has seen the two updates and that read only; the byte
written to register 0x02 has the AUTO_DPDM bit clear. -/
theorem init_device_sequence_witness :
    0 ≤ (bq2589x_disable_watchdog_timer bq25898s_reg client_term_fails).2
      ∧ 0 ≤ (bq2589x_enable_auto_dpdm bq25898s_reg
          (bq2589x_disable_watchdog_timer bq25898s_reg client_term_fails).1 false).2
      ∧ (bq2589x_enable_term bq25898s_reg
          (bq2589x_enable_auto_dpdm bq25898s_reg
            (bq2589x_disable_watchdog_timer bq25898s_reg client_term_fails).1 false).1
          sample_cfg.enable_term).2 < 0
      ∧ bq2589x_init_device bq25898s_reg sample_cfg client_term_fails
          = bq2589x_enable_term bq25898s_reg
              (bq2589x_enable_auto_dpdm bq25898s_reg
                (bq2589x_disable_watchdog_timer bq25898s_reg client_term_fails).1 false).1
              sample_cfg.enable_term
      ∧ (bq2589x_init_device bq25898s_reg sample_cfg client_term_fails).2 = -5
      ∧ issued client_term_fails
          (bq2589x_init_device bq25898s_reg sample_cfg client_term_fails).1
          = [.read 0x07, .write 0x07 0x8D, .read 0x02, .write 0x02 0x10, .read 0x07] :=
  ⟨by decide, by decide, by decide,
   (init_device_sequence bq25898s_reg sample_cfg client_term_fails).2.2.1
     (by decide) (by decide) (by decide),
   by decide, by decide⟩

/-! ## Watchdog refresh -/

/-- A field disjoint from the mask keeps its bits in the merged byte. -/
theorem rmw_disjoint (old mask data k : Nat) (h : (mask % 256) &&& (k % 256) = 0) :
    ((old % 256 &&& (255 ^^^ (mask % 256))) ||| ((data % 256) &&& (mask % 256)))
        &&& (k % 256)
      = old &&& (k % 256) := by
  apply Nat.eq_of_testBit_eq
  intro i
  have hi := congrArg (fun x => x.testBit i) h
  simp only [Nat.testBit_and, testBit_mod_256, Nat.zero_testBit] at hi
  simp only [Nat.testBit_and, Nat.testBit_or, Nat.testBit_xor, testBit_255, testBit_mod_256]
  by_cases h8 : i < 8
  · simp only [h8, decide_True, Bool.true_and] at hi ⊢
    cases hm : mask.testBit i <;> cases hk : k.testBit i <;> simp_all
  · simp [h8]

theorem adc_read_battery_volt_fst (rm : RegMap) (c : i2c_client) :
    (bq2589x_adc_read_battery_volt rm c).1 = (bq2589x_read_byte c rm.BQ25898S_REG_0E).1 := by
  simp only [bq2589x_adc_read_battery_volt]
  split <;> rfl

theorem enable_charger_log (rm : RegMap) (c : i2c_client) :
    (bq2589x_enable_charger rm c).1.log
      = c.log ++ (if c.outcome < 0 then [.read (rm.BQ25898S_REG_03 % 256)]
          else [.read (rm.BQ25898S_REG_03 % 256),
                .write (rm.BQ25898S_REG_03 % 256)
                  ((c.regs (rm.BQ25898S_REG_03 % 256) % 256
                     &&& (255 ^^^ (rm.BQ25898S_CHG_CONFIG_MASK % 256)))
                   ||| ((rm.BQ25898S_CHG_ENABLE <<< rm.BQ25898S_CHG_CONFIG_SHIFT) % 256
                     &&& (rm.BQ25898S_CHG_CONFIG_MASK % 256)))]) := by
  have h := update_bits_log c rm.BQ25898S_REG_03 rm.BQ25898S_CHG_CONFIG_MASK
    ((rm.BQ25898S_CHG_ENABLE <<< rm.BQ25898S_CHG_CONFIG_SHIFT) % 256)
  rw [Nat.mod_mod] at h
  exact h

/-- The watchdog-timeout update issues a read of register 0x07 and at most a write of
that register. -/
theorem set_watchdog_timer_log (rm : RegMap) (c : i2c_client) (timeout : Nat) :
    ∃ data, (bq2589x_set_watchdog_timer rm c timeout).1.log
      = c.log ++ (if c.outcome < 0 then [.read (rm.BQ25898S_REG_07 % 256)]
          else [.read (rm.BQ25898S_REG_07 % 256), .write (rm.BQ25898S_REG_07 % 256) data]) :=
  ⟨_, update_bits_log c rm.BQ25898S_REG_07 rm.BQ25898S_WDT_MASK _⟩
/-- C11 as stated fails: on the sample charger (register 0x02 at 0x11, not in continuous
mode) `bq2589x_init_device` succeeds, and its ADC step, entered with register 0x02 at
0x10, writes 0x50: the CONV_START bit (0x80) stays clear and the CONV_RATE bit (0x40) is
set. -/
theorem init_adc_step_not_one_shot :
    (bq2589x_init_device bq25898s_reg sample_cfg sample_client).2 = 0
      ∧ (issued sample_client
          (bq2589x_init_device bq25898s_reg sample_cfg sample_client).1).drop 10
          = [.read 0x02, .read 0x02, .write 0x02 0x50]
      ∧ (bq2589x_disable_charger bq25898s_reg
          (bq2589x_set_absolute_vindpm bq25898s_reg
            (bq2589x_enable_term bq25898s_reg
              (bq2589x_enable_auto_dpdm bq25898s_reg
                (bq2589x_disable_watchdog_timer bq25898s_reg sample_client).1 false).1
              sample_cfg.enable_term).1 true).1).1.regs 0x02 = 0x10
      ∧ (bq2589x_init_device bq25898s_reg sample_cfg sample_client).1.regs 0x02 = 0x50
      ∧ (bq2589x_init_device bq25898s_reg sample_cfg sample_client).1.regs 0x02
          &&& bq25898s_reg.BQ25898S_CONV_START_MASK = 0
      ∧ (bq2589x_init_device bq25898s_reg sample_cfg sample_client).1.regs 0x02
          &&& bq25898s_reg.BQ25898S_CONV_RATE_MASK = 0x40 := by
  decide

/-- C11 as amended: the last step of `bq2589x_init_device` is `bq2589x_adc_start(bq, false)`
and starts continuous conversion.  When the five steps before it succeed, its read of
register 0x02 succeeds and the CONV_RATE field does not hold the continuous value yet,
the step is one update of the CONV_RATE field with the continuous value: after the read
come the read of the update and, unless that fails, the write of the byte `new`, in which
the CONV_RATE field holds the continuous value and the CONV_START bits are those of the
register.  The map has to keep the two fields apart. -/
theorem init_adc_step_continuous (rm : RegMap) (cfg : bq2589x_config) (c : i2c_client)
    (hdisj : (rm.BQ25898S_CONV_RATE_MASK % 256) &&& (rm.BQ25898S_CONV_START_MASK % 256) = 0) :
    let s1 := bq2589x_disable_watchdog_timer rm c
    let s2 := bq2589x_enable_auto_dpdm rm s1.1 false
    let s3 := bq2589x_enable_term rm s2.1 cfg.enable_term
    let s4 := bq2589x_set_absolute_vindpm rm s3.1 true
    let s5 := bq2589x_disable_charger rm s4.1
    let r := bq2589x_read_byte s5.1 rm.BQ25898S_REG_02
    let old := s5.1.regs (rm.BQ25898S_REG_02 % 256)
    let new := (old % 256 &&& (255 ^^^ (rm.BQ25898S_CONV_RATE_MASK % 256)))
      ||| ((rm.BQ25898S_ADC_CONTINUE_ENABLE <<< rm.BQ25898S_CONV_RATE_SHIFT) % 256
            &&& (rm.BQ25898S_CONV_RATE_MASK % 256))
    0 ≤ s1.2 → 0 ≤ s2.2 → 0 ≤ s3.2 → 0 ≤ s4.2 → 0 ≤ s5.2 →
    r.2.1 = 0 →
    (old % 256 &&& rm.BQ25898S_CONV_RATE_MASK) >>> rm.BQ25898S_CONV_RATE_SHIFT
      ≠ rm.BQ25898S_ADC_CONTINUE_ENABLE →
      bq2589x_init_device rm cfg c
          = bq2589x_update_bits r.1 rm.BQ25898S_REG_02 rm.BQ25898S_CONV_RATE_MASK
              (rm.BQ25898S_ADC_CONTINUE_ENABLE <<< rm.BQ25898S_CONV_RATE_SHIFT)
        ∧ issued s5.1 (bq2589x_init_device rm cfg c).1
            = .read (rm.BQ25898S_REG_02 % 256)
              :: (if r.1.outcome < 0 then [.read (rm.BQ25898S_REG_02 % 256)]
                  else [.read (rm.BQ25898S_REG_02 % 256),
                        .write (rm.BQ25898S_REG_02 % 256) new])
        ∧ new &&& (rm.BQ25898S_CONV_RATE_MASK % 256)
            = (rm.BQ25898S_ADC_CONTINUE_ENABLE <<< rm.BQ25898S_CONV_RATE_SHIFT) % 256
                &&& (rm.BQ25898S_CONV_RATE_MASK % 256)
        ∧ new &&& (rm.BQ25898S_CONV_START_MASK % 256)
            = old &&& (rm.BQ25898S_CONV_START_MASK % 256)
        ∧ ((bq2589x_init_device rm cfg c).2 = 0 →
            (bq2589x_init_device rm cfg c).1.regs (rm.BQ25898S_REG_02 % 256) = new) := by
  intro s1 s2 s3 s4 s5 r old new h1 h2 h3 h4 h5 hr hnot
  have hv : r.2.2 = old % 256 := by
    have := read_byte_value_of_ok s5.1 rm.BQ25898S_REG_02 hr
    exact this
  have hregs : r.1.regs = s5.1.regs := read_byte_regs s5.1 rm.BQ25898S_REG_02
  have hinit : bq2589x_init_device rm cfg c
      = bq2589x_update_bits r.1 rm.BQ25898S_REG_02 rm.BQ25898S_CONV_RATE_MASK
          (rm.BQ25898S_ADC_CONTINUE_ENABLE <<< rm.BQ25898S_CONV_RATE_SHIFT) := by
    have hr0 : ¬ r.2.1 < 0 := by omega
    have hnot2 : ¬ (r.2.2 &&& rm.BQ25898S_CONV_RATE_MASK) >>> rm.BQ25898S_CONV_RATE_SHIFT
        = rm.BQ25898S_ADC_CONTINUE_ENABLE := by
      rw [hv]
      exact hnot
    simp only [bq2589x_init_device, bq2589x_adc_start]
    simp [not_lt.mpr h1, not_lt.mpr h2, not_lt.mpr h3, not_lt.mpr h4, not_lt.mpr h5]
    simp only [r, s5, s4, s3, s2, s1] at hr0 hnot2
    simp [hr0, hnot2]
  have hlog := update_bits_log r.1 rm.BQ25898S_REG_02 rm.BQ25898S_CONV_RATE_MASK
    (rm.BQ25898S_ADC_CONTINUE_ENABLE <<< rm.BQ25898S_CONV_RATE_SHIFT)
  rw [hregs] at hlog
  have hl1 : r.1.log = s5.1.log ++ [.read (rm.BQ25898S_REG_02 % 256)] :=
    read_byte_log s5.1 rm.BQ25898S_REG_02
  refine ⟨hinit, ?_, ?_, ?_, ?_⟩
  · rw [hinit]
    exact issued_trans _ _ _ _ _ hl1 hlog
  · exact rmw_inside_mask old rm.BQ25898S_CONV_RATE_MASK _
  · exact rmw_disjoint old rm.BQ25898S_CONV_RATE_MASK _ rm.BQ25898S_CONV_START_MASK hdisj
  · intro hok
    rw [hinit] at hok ⊢
    have := update_bits_regs_of_ok _ _ _ _ hok
    rw [hregs] at this
    exact this

/-- C11 as amended, on the sample charger with the data-sheet map: the five steps and the
read succeed, continuous mode is off, and `bq2589x_init_device` ends as the update of the
CONV_RATE field; it returns 0 and leaves 0x50 in register 0x02. -/
theorem init_adc_step_continuous_witness :
    (0 ≤ (bq2589x_disable_charger bq25898s_reg
          (bq2589x_set_absolute_vindpm bq25898s_reg
            (bq2589x_enable_term bq25898s_reg
              (bq2589x_enable_auto_dpdm bq25898s_reg
                (bq2589x_disable_watchdog_timer bq25898s_reg sample_client).1 false).1
              sample_cfg.enable_term).1 true).1).2)
      ∧ bq2589x_init_device bq25898s_reg sample_cfg sample_client
          = bq2589x_update_bits
              (bq2589x_read_byte
                (bq2589x_disable_charger bq25898s_reg
                  (bq2589x_set_absolute_vindpm bq25898s_reg
                    (bq2589x_enable_term bq25898s_reg
                      (bq2589x_enable_auto_dpdm bq25898s_reg
                        (bq2589x_disable_watchdog_timer bq25898s_reg sample_client).1
                        false).1
                      sample_cfg.enable_term).1 true).1).1
                bq25898s_reg.BQ25898S_REG_02).1
              bq25898s_reg.BQ25898S_REG_02 bq25898s_reg.BQ25898S_CONV_RATE_MASK
              (bq25898s_reg.BQ25898S_ADC_CONTINUE_ENABLE
                <<< bq25898s_reg.BQ25898S_CONV_RATE_SHIFT)
      ∧ (bq2589x_init_device bq25898s_reg sample_cfg sample_client).2 = 0
      ∧ (bq2589x_init_device bq25898s_reg sample_cfg sample_client).1.regs 0x02 = 0x50 :=
  ⟨by decide,
   (init_adc_step_continuous bq25898s_reg sample_cfg sample_client (by decide)
     (by decide) (by decide) (by decide) (by decide) (by decide) (by decide) (by decide)).1,
   by decide, by decide⟩

/-! ## Monitor tick in precharge -/

/-- C12 as stated fails when the charge-enable update fails: the tick starts with the
flag set and reads 4304 mV, the read of register 0x03 fails with -5, and the tick ends
with the flag still set, charging not enabled, nothing written and one reschedule. -/
theorem precharge_tick_enable_failure :
    handle_prechg_enable_fails.prechg = true
      ∧ (bq2589x_adc_read_battery_volt bq25898s_reg handle_prechg_enable_fails.client).2
          = 4304
      ∧ (bq2589x_monitor_workfunc bq25898s_reg handle_prechg_enable_fails).prechg = true
      ∧ issued handle_prechg_enable_fails.client
          (bq2589x_monitor_workfunc bq25898s_reg handle_prechg_enable_fails).client
          = [.read 0x0E, .read 0x03]
      ∧ charging_enabled bq25898s_reg
          (bq2589x_monitor_workfunc bq25898s_reg handle_prechg_enable_fails).client = false
      ∧ (bq2589x_monitor_workfunc bq25898s_reg handle_prechg_enable_fails).monitor_work.pending
          = true
      ∧ (bq2589x_monitor_workfunc bq25898s_reg
          handle_prechg_enable_fails).monitor_work.scheduled
          = handle_prechg_enable_fails.monitor_work.scheduled + 1 := by
  decide

/-- A register update returns 0 or a negative errno. -/
theorem update_bits_ret_nonpos (c : i2c_client) (reg mask data : Nat) :
    (bq2589x_update_bits c reg mask data).2 ≤ 0 := by
  by_cases h : c.outcome < 0
  · rw [update_bits_fail c reg mask data h]
    exact le_of_lt h
  · rw [update_bits_ok c reg mask data h]
    simp only [bq2589x_write_byte, i2c_smbus_write_byte_data]
    split
    · rename_i h2
      exact le_of_lt h2
    · exact le_refl _

/-- A monitor tick that starts with the precharge flag set leaves the WDT_RESET bits as
they are in every byte it writes to register 0x03. -/
theorem precharge_tick_keeps_wdt_reset (rm : RegMap) (bq : bq2589x)
    (hp : bq.prechg = true)
    (hdisj : (rm.BQ25898S_CHG_CONFIG_MASK % 256) &&& (rm.BQ25898S_WDT_RESET_MASK % 256) = 0)
    (hreg : rm.BQ25898S_REG_07 % 256 ≠ rm.BQ25898S_REG_03 % 256) (data : Nat)
    (hmem : Txn.write (rm.BQ25898S_REG_03 % 256) data
      ∈ issued bq.client (bq2589x_monitor_workfunc rm bq).client) :
    data &&& (rm.BQ25898S_WDT_RESET_MASK % 256)
      = bq.client.regs (rm.BQ25898S_REG_03 % 256) &&& (rm.BQ25898S_WDT_RESET_MASK % 256) := by
  have l1 := read_byte_log bq.client rm.BQ25898S_REG_0E
  have r1 := read_byte_regs bq.client rm.BQ25898S_REG_0E
  have le := enable_charger_log rm (bq2589x_read_byte bq.client rm.BQ25898S_REG_0E).1
  obtain ⟨wd, lw⟩ := set_watchdog_timer_log rm
    (bq2589x_enable_charger rm (bq2589x_read_byte bq.client rm.BQ25898S_REG_0E).1).1 40
  rw [r1] at le
  have hx := rmw_disjoint (bq.client.regs (rm.BQ25898S_REG_03 % 256))
    rm.BQ25898S_CHG_CONFIG_MASK
    ((rm.BQ25898S_CHG_ENABLE <<< rm.BQ25898S_CHG_CONFIG_SHIFT) % 256)
    rm.BQ25898S_WDT_RESET_MASK hdisj
  rw [Nat.mod_mod] at hx
  simp only [bq2589x_monitor_workfunc, hp, if_true, adc_read_battery_volt_fst] at hmem
  split_ifs at hmem with h1 h2 h3
  · simp [schedule_delayed_work, issued, l1] at hmem
  · simp [schedule_delayed_work, issued, l1] at hmem
  · simp only [schedule_delayed_work, issued, le, l1, List.append_assoc,
      List.drop_left] at hmem
    split_ifs at hmem <;> simp at hmem
    rw [hmem]
    exact hx
  · simp only [schedule_delayed_work, issued, lw, le, l1, List.append_assoc,
      List.drop_left] at hmem
    split_ifs at hmem <;> simp at hmem
    all_goals
      first
      | (rw [hmem]; exact hx)
      | exact absurd hmem.1.symm hreg
      | (rcases hmem with h | h
         · rw [h]; exact hx
         · exact absurd h.1.symm hreg)

/-- C12 as amended: a monitor tick that starts with the precharge flag set reads the
battery voltage `v`.  If the read fails or gives less than 3500 mV, the read is the only
transaction, the flag stays set and the monitor is rescheduled.  If it gives 3500 mV or
more, `bq2589x_enable_charger` is called (`e`): if that fails the tick reschedules with
the flag still set and the watchdog untouched; if it succeeds the CHG_CONFIG field holds
the enable value, the watchdog update for 40 s is issued (`w`), the flag is cleared and
the monitor is rescheduled.  In every case `schedule_delayed_work` is called exactly once,
and no byte written to register 0x03 changes the WDT_RESET bits.  The map has to keep the
CHG_CONFIG and WDT_RESET fields apart and registers 0x03 and 0x07 distinct. -/
theorem monitor_precharge_tick (rm : RegMap) (bq : bq2589x) (hp : bq.prechg = true)
    (hdisj : (rm.BQ25898S_CHG_CONFIG_MASK % 256) &&& (rm.BQ25898S_WDT_RESET_MASK % 256) = 0)
    (hreg : rm.BQ25898S_REG_07 % 256 ≠ rm.BQ25898S_REG_03 % 256) :
    let v := bq2589x_adc_read_battery_volt rm bq.client
    let e := bq2589x_enable_charger rm v.1
    let w := bq2589x_set_watchdog_timer rm e.1 40
    let out := bq2589x_monitor_workfunc rm bq
    (v.2 < 3500 →
        out = schedule_delayed_work { bq with client := v.1 }
        ∧ out.prechg = true
        ∧ issued bq.client out.client = [.read (rm.BQ25898S_REG_0E % 256)])
    ∧ (3500 ≤ v.2 → e.2 < 0 →
        out = schedule_delayed_work { bq with client := e.1 }
        ∧ out.prechg = true)
    ∧ (3500 ≤ v.2 → 0 ≤ e.2 →
        out = schedule_delayed_work { bq with client := w.1, prechg := false }
        ∧ out.prechg = false
        ∧ out.client.regs (rm.BQ25898S_REG_03 % 256) &&& (rm.BQ25898S_CHG_CONFIG_MASK % 256)
            = (rm.BQ25898S_CHG_ENABLE <<< rm.BQ25898S_CHG_CONFIG_SHIFT) % 256
                &&& (rm.BQ25898S_CHG_CONFIG_MASK % 256))
    ∧ out.monitor_work.pending = true
    ∧ out.monitor_work.scheduled = bq.monitor_work.scheduled + 1
    ∧ (∀ data, Txn.write (rm.BQ25898S_REG_03 % 256) data ∈ issued bq.client out.client →
        data &&& (rm.BQ25898S_WDT_RESET_MASK % 256)
          = bq.client.regs (rm.BQ25898S_REG_03 % 256)
              &&& (rm.BQ25898S_WDT_RESET_MASK % 256)) := by
  have key := precharge_tick_keeps_wdt_reset rm bq hp hdisj hreg
  dsimp only
  refine ⟨?_, ?_, ?_, ?_, ?_, key⟩
  · intro h1
    have e1 : bq2589x_monitor_workfunc rm bq
        = schedule_delayed_work
            { bq with client := (bq2589x_adc_read_battery_volt rm bq.client).1 } := by
      unfold bq2589x_monitor_workfunc
      rw [if_pos hp]
      dsimp only
      split_ifs <;> rfl
    refine ⟨e1, ?_, ?_⟩
    · rw [e1]
      exact hp
    · rw [e1]
      simp only [schedule_delayed_work, adc_read_battery_volt_fst]
      exact issued_of_log _ _ _ (read_byte_log bq.client rm.BQ25898S_REG_0E)
  · intro h1 h2
    have e1 : bq2589x_monitor_workfunc rm bq
        = schedule_delayed_work
            { bq with client := (bq2589x_enable_charger rm
                (bq2589x_adc_read_battery_volt rm bq.client).1).1 } := by
      unfold bq2589x_monitor_workfunc
      rw [if_pos hp]
      dsimp only
      split_ifs <;> first | rfl | omega
    exact ⟨e1, by rw [e1]; exact hp⟩
  · intro h1 h2
    have e1 : bq2589x_monitor_workfunc rm bq
        = schedule_delayed_work
            { bq with
              client := (bq2589x_set_watchdog_timer rm (bq2589x_enable_charger rm
                (bq2589x_adc_read_battery_volt rm bq.client).1).1 40).1,
              prechg := false } := by
      unfold bq2589x_monitor_workfunc
      rw [if_pos hp]
      dsimp only
      split_ifs <;> first | rfl | omega
    refine ⟨e1, by rw [e1]; rfl, ?_⟩
    have h3 : (bq2589x_enable_charger rm
        (bq2589x_adc_read_battery_volt rm bq.client).1).2 ≤ 0 :=
      update_bits_ret_nonpos _ rm.BQ25898S_REG_03 rm.BQ25898S_CHG_CONFIG_MASK
        ((rm.BQ25898S_CHG_ENABLE <<< rm.BQ25898S_CHG_CONFIG_SHIFT) % 256)
    have e0 : (bq2589x_enable_charger rm
        (bq2589x_adc_read_battery_volt rm bq.client).1).2 = 0 := by omega
    have r3 : (bq2589x_enable_charger rm
        (bq2589x_adc_read_battery_volt rm bq.client).1).1.regs (rm.BQ25898S_REG_03 % 256)
          = _ :=
      update_bits_regs_of_ok _ rm.BQ25898S_REG_03 rm.BQ25898S_CHG_CONFIG_MASK
        ((rm.BQ25898S_CHG_ENABLE <<< rm.BQ25898S_CHG_CONFIG_SHIFT) % 256) e0
    have r7 : (bq2589x_set_watchdog_timer rm (bq2589x_enable_charger rm
        (bq2589x_adc_read_battery_volt rm bq.client).1).1 40).1.regs
          (rm.BQ25898S_REG_03 % 256)
        = (bq2589x_enable_charger rm
            (bq2589x_adc_read_battery_volt rm bq.client).1).1.regs
              (rm.BQ25898S_REG_03 % 256) :=
      update_bits_regs_other _ rm.BQ25898S_REG_07 rm.BQ25898S_WDT_MASK _
        (rm.BQ25898S_REG_03 % 256) (Ne.symm hreg)
    rw [e1]
    show (bq2589x_set_watchdog_timer rm _ 40).1.regs (rm.BQ25898S_REG_03 % 256) &&& _ = _
    rw [r7, r3, Nat.mod_mod]
    have := rmw_inside_mask
      ((bq2589x_adc_read_battery_volt rm bq.client).1.regs (rm.BQ25898S_REG_03 % 256))
      rm.BQ25898S_CHG_CONFIG_MASK
      ((rm.BQ25898S_CHG_ENABLE <<< rm.BQ25898S_CHG_CONFIG_SHIFT) % 256)
    rw [Nat.mod_mod] at this
    exact this
  · unfold bq2589x_monitor_workfunc
    rw [if_pos hp]
    dsimp only
    split_ifs <;> rfl
  · unfold bq2589x_monitor_workfunc
    rw [if_pos hp]
    dsimp only
    split_ifs <;> rfl

/-- C12 as amended, with the data-sheet map on the sample handle with the flag set
(battery at 4304 mV, healthy bus): the charge-enable update succeeds and the tick ends
with the watchdog update issued, the flag cleared and one more call of
`schedule_delayed_work`. -/
theorem monitor_precharge_tick_witness :
    sample_handle_prechg.prechg = true
      ∧ 3500 ≤ (bq2589x_adc_read_battery_volt bq25898s_reg sample_handle_prechg.client).2
      ∧ 0 ≤ (bq2589x_enable_charger bq25898s_reg
          (bq2589x_adc_read_battery_volt bq25898s_reg sample_handle_prechg.client).1).2
      ∧ bq2589x_monitor_workfunc bq25898s_reg sample_handle_prechg
          = schedule_delayed_work
              { sample_handle_prechg with
                client := (bq2589x_set_watchdog_timer bq25898s_reg
                  (bq2589x_enable_charger bq25898s_reg
                    (bq2589x_adc_read_battery_volt bq25898s_reg
                      sample_handle_prechg.client).1).1 40).1,
                prechg := false }
      ∧ (bq2589x_monitor_workfunc bq25898s_reg sample_handle_prechg).monitor_work.scheduled
          = sample_handle_prechg.monitor_work.scheduled + 1 :=
  have h := monitor_precharge_tick bq25898s_reg sample_handle_prechg rfl
    (by decide) (by decide)
  ⟨rfl, by decide, by decide, (h.2.2.1 (by decide) (by decide)).1, h.2.2.2.2.1⟩

/-! ## Precharge flag -/

/-- C13 as stated fails.  Within the first session: adapter-in at 3304 mV sets the flag,
the battery rises to 4304 mV, and the tick that measures it cannot enable charging (the
read of register 0x03 fails with -5), so the flag is still set after a measurement of
4304 mV.  Across sessions: adapter-in at 3304 mV sets the flag, adapter-out leaves it set,
and the next adapter-in measures 4304 mV, enables charging and schedules the monitor with
the flag still set. -/
theorem precharge_flag_outlives_threshold :
    ((run_events bq25898s_reg (some handle_tick_enable_fails)
          [.device 0x0E 50, .adapter_in none, .device 0x0E 100]).map
        (fun bq => (bq.prechg, bq.monitor_work.pending,
          (bq2589x_adc_read_battery_volt bq25898s_reg bq.client).2))
        = some (true, true, 4304)
      ∧ (run_events bq25898s_reg (some handle_tick_enable_fails)
          [.device 0x0E 50, .adapter_in none, .device 0x0E 100, .monitor_tick]).map
        (fun bq => (bq.prechg, bq.client.log.drop 12))
        = some (true, [.read 0x0E, .read 0x03]))
    ∧ ((run_events bq25898s_reg (some sample_handle)
          [.device 0x0E 50, .adapter_in none, .adapter_out, .device 0x0E 100]).map
        (fun bq => (bq.prechg,
          (bq2589x_set_charge_profile bq25898s_reg bq.cfg bq.client).2,
          (bq2589x_adc_read_battery_volt bq25898s_reg
            (bq2589x_set_charge_profile bq25898s_reg bq.cfg bq.client).1).2))
        = some (true, 0, 4304)
      ∧ (run_events bq25898s_reg (some sample_handle)
          [.device 0x0E 50, .adapter_in none, .adapter_out, .device 0x0E 100,
           .adapter_in none]).map
        (fun bq => (bq.prechg, charging_enabled bq25898s_reg bq.client,
          bq.monitor_work.pending))
        = some (true, true, true)) := by
  decide

theorem irq_workfunc_prechg (rm : RegMap) (bq : bq2589x) :
    (bq2589x_charger_irq_workfunc rm bq).prechg = bq.prechg := by
  unfold bq2589x_charger_irq_workfunc
  dsimp only
  split_ifs <;> rfl

/-- A monitor tick that starts with the flag clear leaves it clear. -/
theorem monitor_workfunc_prechg_clear (rm : RegMap) (bq : bq2589x)
    (h : bq.prechg = false) :
    (bq2589x_monitor_workfunc rm bq).prechg = false := by
  unfold bq2589x_monitor_workfunc
  simp [h, schedule_delayed_work]

/-- A monitor tick that starts with the flag set clears it exactly when it measures
3500 mV or more and the charge-enable update succeeds. -/
theorem monitor_workfunc_prechg_set (rm : RegMap) (bq : bq2589x) (h : bq.prechg = true) :
    (bq2589x_monitor_workfunc rm bq).prechg
      = !(decide (3500 ≤ (bq2589x_adc_read_battery_volt rm bq.client).2
            ∧ 0 ≤ (bq2589x_enable_charger rm
                    (bq2589x_adc_read_battery_volt rm bq.client).1).2)) := by
  unfold bq2589x_monitor_workfunc
  rw [if_pos h]
  dsimp only
  split_ifs with h1 h2 h3
  · have : ¬ 3500 ≤ (bq2589x_adc_read_battery_volt rm bq.client).2 := by omega
    simp [schedule_delayed_work, h, this]
  · have : ¬ 3500 ≤ (bq2589x_adc_read_battery_volt rm bq.client).2 := by omega
    simp [schedule_delayed_work, h, this]
  · have : ¬ 0 ≤ (bq2589x_enable_charger rm
        (bq2589x_adc_read_battery_volt rm bq.client).1).2 := by omega
    simp [schedule_delayed_work, h, this]
  · have a : 3500 ≤ (bq2589x_adc_read_battery_volt rm bq.client).2 := by omega
    have b : 0 ≤ (bq2589x_enable_charger rm
        (bq2589x_adc_read_battery_volt rm bq.client).1).2 := by omega
    simp [schedule_delayed_work, a, b]

/-- No event other than an adapter-connect sets the flag. -/
theorem apply_keeps_flag_clear (rm : RegMap) (e : Event) (he : e.is_adapter_in = false)
    (bq : bq2589x) (h : bq.prechg = false) :
    ∃ bq1, Event.apply rm (some bq) e = some bq1 ∧ bq1.prechg = false := by
  cases e with
  | adapter_in battery => simp [Event.is_adapter_in] at he
  | adapter_out =>
    exact ⟨_, rfl, h⟩
  | monitor_tick =>
    simp only [Event.apply, run_monitor_work]
    split_ifs
    · exact ⟨_, rfl, monitor_workfunc_prechg_clear rm _ h⟩
    · exact ⟨_, rfl, h⟩
  | irq =>
    exact ⟨_, rfl, (irq_workfunc_prechg rm bq).trans h⟩
  | device reg data =>
    exact ⟨_, rfl, h⟩

/-- Without an adapter-connect the flag stays clear. -/
theorem run_events_keeps_flag_clear (rm : RegMap) (es : List Event)
    (hes : ∀ e ∈ es, e.is_adapter_in = false) (bq : bq2589x) (h : bq.prechg = false) :
    (run_events rm (some bq) es).map (fun b => b.prechg) = some false := by
  induction es generalizing bq with
  | nil => simp [run_events, h]
  | cons e es ih =>
    obtain ⟨bq1, h1, h2⟩ := apply_keeps_flag_clear rm e (hes e (List.mem_cons_self _ _)) bq h
    have := ih (fun x hx => hes x (List.mem_cons_of_mem _ hx)) bq1 h2
    simpa [run_events, List.foldl_cons, h1] using this

/-- An adapter-connect entered with the flag clear sets it exactly when the charge profile
was applied and the battery voltage read gave less than 3500 mV. -/
theorem adapter_in_prechg (rm : RegMap) (battery : Option power_supply) (bq : bq2589x)
    (hclear : bq.prechg = false) :
    ∃ bq1, bq2589x_adapter_in_handler rm battery (some bq) = some bq1
      ∧ bq1.prechg
          = decide ((bq2589x_set_charge_profile rm bq.cfg bq.client).2 = 0
              ∧ 0 ≤ (bq2589x_adc_read_battery_volt rm
                      (bq2589x_set_charge_profile rm bq.cfg bq.client).1).2
              ∧ (bq2589x_adc_read_battery_volt rm
                      (bq2589x_set_charge_profile rm bq.cfg bq.client).1).2 < 3500) := by
  simp only [bq2589x_adapter_in_handler]
  generalize bq2589x_set_charge_profile rm bq.cfg bq.client = p
  generalize bq2589x_adc_read_battery_volt rm p.1 = v
  obtain ⟨-, f2, -, -, -⟩ := read_batt_rsoc_frame battery { bq with client := v.1 }
  simp only [] at f2
  split_ifs with h1 h2 h3 h4 h5
  · exact ⟨_, rfl, by simp [hclear, h1]⟩
  · exact ⟨_, rfl, by
      have : ¬ 0 ≤ v.2 := by omega
      simp [hclear, this]⟩
  · refine ⟨_, rfl, ?_⟩
    have a : p.2 = 0 := by simpa using h1
    have b : 0 ≤ v.2 := by omega
    simp [schedule_delayed_work, a, b, h3]
  all_goals
    refine ⟨_, rfl, ?_⟩
    show (bq2589x_read_batt_rsoc battery _).1.prechg = _
    rw [f2, hclear]
    simp [h3]

/-- C13 as amended, for a session entered with the precharge flag clear, as the first
session after probe is.  `bq2589x_adapter_in_handler` sets the flag exactly when the
charge profile was applied and it measured a battery voltage below 3500 mV.  Whenever the
flag is set later on, before the next adapter-connect, the adapter-connect of the session
measured below 3500 mV; and after an adapter-connect that measures 3500 mV or more the
flag is clear under every sequence of monitor ticks, interrupt work, register changes of
the charger and adapter-disconnect.  A monitor tick that starts with the flag set clears
it exactly when it measures 3500 mV or more and its charge-enable update succeeds; a tick
that starts with the flag clear leaves it clear. -/
theorem precharge_flag_session (rm : RegMap) (battery : Option power_supply) (bq : bq2589x)
    (hclear : bq.prechg = false) :
    let p := bq2589x_set_charge_profile rm bq.cfg bq.client
    let m := bq2589x_adc_read_battery_volt rm p.1
    let s0 := bq2589x_adapter_in_handler rm battery (some bq)
    s0.map (fun b => b.prechg) = some (decide (p.2 = 0 ∧ 0 ≤ m.2 ∧ m.2 < 3500))
      ∧ (∀ es : List Event, (∀ e ∈ es, e.is_adapter_in = false) →
          (run_events rm s0 es).map (fun b => b.prechg) = some true →
            p.2 = 0 ∧ 0 ≤ m.2 ∧ m.2 < 3500)
      ∧ (∀ es : List Event, (∀ e ∈ es, e.is_adapter_in = false) →
          p.2 = 0 → 3500 ≤ m.2 →
            (run_events rm s0 es).map (fun b => b.prechg) = some false)
      ∧ (∀ b : bq2589x, b.prechg = true →
          (bq2589x_monitor_workfunc rm b).prechg
            = !(decide (3500 ≤ (bq2589x_adc_read_battery_volt rm b.client).2
                  ∧ 0 ≤ (bq2589x_enable_charger rm
                          (bq2589x_adc_read_battery_volt rm b.client).1).2)))
      ∧ (∀ b : bq2589x, b.prechg = false →
          (bq2589x_monitor_workfunc rm b).prechg = false) := by
  dsimp only
  obtain ⟨bq1, h1, h2⟩ := adapter_in_prechg rm battery bq hclear
  rw [h1]
  refine ⟨by simp [h2], ?_, ?_, monitor_workfunc_prechg_set rm, monitor_workfunc_prechg_clear rm⟩
  · intro es hes htrue
    by_contra hlow
    have hf : bq1.prechg = false := by simp [h2, hlow]
    have := run_events_keeps_flag_clear rm es hes bq1 hf
    rw [this] at htrue
    simp at htrue
  · intro es hes hp hm
    have hf : bq1.prechg = false := by
      rw [h2]
      have : ¬ (bq2589x_adc_read_battery_volt rm
          (bq2589x_set_charge_profile rm bq.cfg bq.client).1).2 < 3500 := by omega
      simp [this]
    exact run_events_keeps_flag_clear rm es hes bq1 hf

/-- C13 as amended, on the freshly probed sample handle with the data-sheet map: the flag
is clear, the adapter-connect applies the profile and measures 4304 mV, and the flag is
clear after the two monitor ticks, the interrupt work and the adapter-disconnect that
follow. -/
theorem precharge_flag_session_witness :
    sample_handle.prechg = false
      ∧ (bq2589x_set_charge_profile bq25898s_reg sample_handle.cfg sample_handle.client).2 = 0
      ∧ 3500 ≤ (bq2589x_adc_read_battery_volt bq25898s_reg
          (bq2589x_set_charge_profile bq25898s_reg sample_handle.cfg
            sample_handle.client).1).2
      ∧ (run_events bq25898s_reg
          (bq2589x_adapter_in_handler bq25898s_reg none (some sample_handle))
          [.monitor_tick, .irq, .monitor_tick, .adapter_out]).map (fun b => b.prechg)
          = some false :=
  ⟨rfl, by decide, by decide,
   (precharge_flag_session bq25898s_reg none sample_handle rfl).2.2.1
     [.monitor_tick, .irq, .monitor_tick, .adapter_out]
     (by decide) (by decide) (by decide)⟩

end BQ25898S
